import Mathlib

/-
Verification of the Magtogoek ADCP processing modules:
  magtogoek/utils.py              (Logger)
  magtogoek/adcp/quality_control.py
  magtogoek/adcp/loader.py

Shallow embedding conventions:
* numpy floating-point scalars are modelled by FVal: finite rationals plus
  nan / +inf / -inf with IEEE comparison semantics (nan compares false);
  float rounding is not modelled.
* 2-d arrays of shape (depth, time) are lists of rows (one row per depth,
  one entry per time sample); 1-d time arrays are plain lists.
* numpy fancy assignment arr[mask] = v and elementwise operations assume
  equal shapes (numpy would raise otherwise); theorems carry the shape
  hypotheses.
* Python exceptions are modelled with Except PyError; in-place mutation is
  modelled by returning the updated value.  Mutations performed before an
  exception is raised are not observable through this model.
* library code that is outside the three source files (scipy circmean,
  magtogoek.tools.circular_distance, np.cos, pycurrents transforms,
  uninitialized memory read by np.greater(..., where=mask) without an out
  argument) is abstracted into explicit function parameters (PyEnv,
  TransformEnv).
-/

namespace Magtogoek

/-- Model of a numpy float64 value: nan, +inf, -inf, or a finite value
(represented by a rational; rounding of binary floats is not modelled). -/
inductive FVal where
  | nan : FVal
  | pinf : FVal
  | ninf : FVal
  | fin : ℚ → FVal
deriving DecidableEq, Repr

namespace FVal

/-- np.isfinite. -/
def isfin : FVal → Bool
  | fin _ => true
  | _ => false

/-- x < c for a float x and a finite threshold c (nan compares false). -/
def lt : FVal → ℚ → Bool
  | nan, _ => false
  | pinf, _ => false
  | ninf, _ => true
  | fin q, c => decide (q < c)

/-- x > c for a float x and a finite threshold c (nan compares false). -/
def gt : FVal → ℚ → Bool
  | nan, _ => false
  | pinf, _ => true
  | ninf, _ => false
  | fin q, c => decide (c < q)

/-- IEEE negation. -/
def neg : FVal → FVal
  | nan => nan
  | pinf => ninf
  | ninf => pinf
  | fin q => fin (-q)

/-- IEEE absolute value. -/
def abs : FVal → FVal
  | nan => nan
  | pinf => pinf
  | ninf => pinf
  | fin q => fin |q|

/-- IEEE addition (inf + -inf = nan). -/
def add : FVal → FVal → FVal
  | nan, _ => nan
  | _, nan => nan
  | pinf, ninf => nan
  | pinf, _ => pinf
  | ninf, pinf => nan
  | ninf, _ => ninf
  | fin _, pinf => pinf
  | fin _, ninf => ninf
  | fin a, fin b => fin (a + b)

/-- IEEE subtraction, a - b = a + (-b). -/
def sub (a b : FVal) : FVal := add a (neg b)

/-- IEEE multiplication (inf * 0 = nan). -/
def mul : FVal → FVal → FVal
  | nan, _ => nan
  | _, nan => nan
  | pinf, pinf => pinf
  | pinf, ninf => ninf
  | ninf, pinf => ninf
  | ninf, ninf => pinf
  | pinf, fin q => if 0 < q then pinf else if q < 0 then ninf else nan
  | ninf, fin q => if 0 < q then ninf else if q < 0 then pinf else nan
  | fin q, pinf => if 0 < q then pinf else if q < 0 then ninf else nan
  | fin q, ninf => if 0 < q then ninf else if q < 0 then pinf else nan
  | fin a, fin b => fin (a * b)

end FVal

/-- q > b for a finite value q and a float b (nan compares false). -/
def qGtF (q : ℚ) : FVal → Bool
  | .nan => false
  | .pinf => false
  | .ninf => true
  | .fin x => decide (x < q)

/-- q < b for a finite value q and a float b (nan compares false). -/
def qLtF (q : ℚ) : FVal → Bool
  | .nan => false
  | .pinf => true
  | .ninf => false
  | .fin x => decide (q < x)

/-! ### 2-d arrays -/

/-- A 2-d array of shape (depth, time): a list of depth rows, each a list of
time samples. -/
abbrev Grid (α : Type) : Type := List (List α)

/-- Map with the element index, starting the count at i. -/
def rowIdxMap (f : ℕ → α → β) : ℕ → List α → List β
  | _, [] => []
  | i, a :: as => f i a :: rowIdxMap f (i + 1) as

/-- Elementwise map over a grid with both indices available. -/
def gridIdxMap (f : ℕ → ℕ → α → β) (g : Grid α) : Grid β :=
  rowIdxMap (fun d row => rowIdxMap (fun t x => f d t x) 0 row) 0 g

/-- The cell at (d, t), with a default for out-of-range access. -/
def gridGet (g : Grid α) (dflt : α) (d t : ℕ) : α :=
  (g.getD d []).getD t dflt

/-- Elementwise map over a grid. -/
def gridMap (f : α → β) (g : Grid α) : Grid β :=
  g.map (List.map f)

/-- np.ones(depth.shape + time.shape) as an integer flag grid. -/
def gridOnes (D T : ℕ) : Grid ℤ :=
  List.replicate D (List.replicate T 1)

/-- np.full(depth.shape + time.shape, False). -/
def gridFalse (D T : ℕ) : Grid Bool :=
  List.replicate D (List.replicate T false)

/-- Total number of elements (ndarray.size). -/
def gridSize (g : Grid α) : ℕ :=
  (g.map List.length).sum

/-- The grid has exactly D rows of T entries each. -/
def gridShaped (g : Grid α) (D T : ℕ) : Prop :=
  g.length = D ∧ ∀ i, (hi : i < g.length) → g[i].length = T

instance (g : Grid α) (D T : ℕ) : Decidable (gridShaped g D T) := by
  unfold gridShaped; exact instDecidableAnd

/-- numpy fancy assignment flags[mask] = value (equal shapes assumed). -/
def maskAssign (flags : Grid ℤ) (mask : Grid Bool) (value : ℤ) : Grid ℤ :=
  gridIdxMap (fun d t x => if gridGet mask false d t then value else x) flags

/-! ### Grid lemmas -/

theorem length_rowIdxMap (f : ℕ → α → β) (i : ℕ) (l : List α) :
    (rowIdxMap f i l).length = l.length := by
  induction l generalizing i with
  | nil => rfl
  | cons a as ih => simp [rowIdxMap, ih]

theorem getD_rowIdxMap (f : ℕ → α → β) (i : ℕ) (l : List α) (j : ℕ) (dA : α) (dB : β)
    (hj : j < l.length) :
    (rowIdxMap f i l).getD j dB = f (i + j) (l.getD j dA) := by
  induction l generalizing i j with
  | nil => simp at hj
  | cons a as ih =>
    cases j with
    | zero => simp [rowIdxMap]
    | succ k =>
      have hk : k < as.length := by simp at hj; omega
      simp only [rowIdxMap, List.getD_cons_succ]
      rw [ih (i + 1) k hk]
      ring_nf

theorem getD_listMap (f : α → β) (l : List α) (j : ℕ) (dA : α) (dB : β)
    (hj : j < l.length) :
    (l.map f).getD j dB = f (l.getD j dA) := by
  induction l generalizing j with
  | nil => simp at hj
  | cons a as ih =>
    cases j with
    | zero => simp
    | succ k =>
      have hk : k < as.length := by simp at hj; omega
      simp only [List.map_cons, List.getD_cons_succ]
      exact ih k hk

theorem length_gridIdxMap (f : ℕ → ℕ → α → β) (g : Grid α) :
    (gridIdxMap f g).length = g.length :=
  length_rowIdxMap _ 0 g

theorem shapedIdx {g : Grid α} {D T : ℕ} (hs : gridShaped g D T) {d t : ℕ}
    (hd : d < D) (ht : t < T) :
    d < g.length ∧ t < (g.getD d []).length := by
  obtain ⟨hlen, hrow⟩ := hs
  have hd2 : d < g.length := by omega
  refine ⟨hd2, ?_⟩
  rw [List.getD_eq_getElem g [] hd2, hrow d hd2]
  exact ht

theorem gridGet_gridIdxMap (f : ℕ → ℕ → α → β) (g : Grid α) (a0 : α) (b0 : β)
    {d t : ℕ} (hd : d < g.length) (ht : t < (g.getD d []).length) :
    gridGet (gridIdxMap f g) b0 d t = f d t (gridGet g a0 d t) := by
  unfold gridGet gridIdxMap
  have h1 := getD_rowIdxMap (fun dd row => rowIdxMap (fun tt x => f dd tt x) 0 row)
    0 g d ([] : List α) ([] : List β) hd
  rw [h1]
  have h2 := getD_rowIdxMap (fun tt x => f (0 + d) tt x) 0 (g.getD d []) t a0 b0 ht
  rw [h2]
  simp only [Nat.zero_add]

theorem shaped_gridIdxMap (f : ℕ → ℕ → α → β) {g : Grid α} {D T : ℕ}
    (hs : gridShaped g D T) : gridShaped (gridIdxMap f g) D T := by
  obtain ⟨hlen, hrow⟩ := hs
  constructor
  · rw [length_gridIdxMap]; exact hlen
  · intro i hi
    have hi2 : i < g.length := by rw [length_gridIdxMap] at hi; exact hi
    have h1 : (gridIdxMap f g)[i] = (gridIdxMap f g).getD i [] :=
      (List.getD_eq_getElem _ [] hi).symm
    rw [h1]
    unfold gridIdxMap
    rw [getD_rowIdxMap (fun dd row => rowIdxMap (fun tt x => f dd tt x) 0 row)
      0 g i ([] : List α) ([] : List β) hi2]
    rw [length_rowIdxMap, List.getD_eq_getElem g [] hi2]
    exact hrow i hi2

theorem gridGet_gridMap (f : α → β) (g : Grid α) (a0 : α) (b0 : β)
    {d t : ℕ} (hd : d < g.length) (ht : t < (g.getD d []).length) :
    gridGet (gridMap f g) b0 d t = f (gridGet g a0 d t) := by
  unfold gridGet gridMap
  have h1 := getD_listMap (List.map f) g d ([] : List α) ([] : List β) hd
  rw [h1]
  have h2 := getD_listMap f (g.getD d []) t a0 b0 ht
  rw [h2]

theorem shaped_gridMap (f : α → β) {g : Grid α} {D T : ℕ}
    (hs : gridShaped g D T) : gridShaped (gridMap f g) D T := by
  obtain ⟨hlen, hrow⟩ := hs
  constructor
  · simp [gridMap, hlen]
  · intro i hi
    simp only [gridMap, List.length_map] at hi ⊢
    rw [List.getElem_map, List.length_map]
    exact hrow i hi

theorem shaped_gridOnes (D T : ℕ) : gridShaped (gridOnes D T) D T := by
  constructor
  · simp [gridOnes]
  · intro i hi
    simp [gridOnes] at hi ⊢

theorem shaped_gridFalse (D T : ℕ) : gridShaped (gridFalse D T) D T := by
  constructor
  · simp [gridFalse]
  · intro i hi
    simp [gridFalse] at hi ⊢

theorem shaped_replicate {row : List α} {D T : ℕ} (hrow : row.length = T) :
    gridShaped (List.replicate D row) D T := by
  constructor
  · simp
  · intro i hi
    simp [hrow]

theorem gridGet_replicate {row : List α} (dflt : α) {D d t : ℕ}
    (hd : d < D) : gridGet (List.replicate D row) dflt d t = row.getD t dflt := by
  unfold gridGet
  rw [List.getD_eq_getElem _ [] (by simpa using hd), List.getElem_replicate]

theorem shaped_maskAssign {flags : Grid ℤ} {mask : Grid Bool} {value : ℤ} {D T : ℕ}
    (hs : gridShaped flags D T) : gridShaped (maskAssign flags mask value) D T :=
  shaped_gridIdxMap _ hs

theorem gridGet_maskAssign (flags : Grid ℤ) (mask : Grid Bool) (value : ℤ)
    {d t : ℕ} (hd : d < flags.length) (ht : t < (flags.getD d []).length) :
    gridGet (maskAssign flags mask value) 0 d t =
      if gridGet mask false d t then value else gridGet flags 0 d t :=
  gridGet_gridIdxMap _ flags 0 0 hd ht

theorem gridGet_gridFalse {D T d t : ℕ} (hd : d < D) :
    gridGet (gridFalse D T) false d t = false := by
  rw [gridFalse, gridGet_replicate false hd]
  cases Nat.lt_or_ge t T with
  | inl h => rw [List.getD_eq_getElem _ _ (by simpa using h)]; simp
  | inr h => rw [List.getD_eq_default _ _ (by simpa using h)]

/-! ### magtogoek/utils.py : class Logger -/

/-- magtogoek.utils.Logger: a logbook string, a warning counter and a
verbosity level (0 prints everything, 1 prints only warnings, 2 prints
nothing). -/
structure Logger where
  logbook : String
  w_count : ℕ
  level : ℤ
deriving DecidableEq, Repr

namespace Logger

/-- Logger.reset: clears the logbook and the warning counter. -/
def reset (lg : Logger) : Logger :=
  { lg with logbook := "", w_count := 0 }

/-- Logger.section (renamed: section is a Lean keyword).  ts stands for the
string produced by Logger._timestamp().  Returns the new state and the list
of lines printed to the console. -/
def section' (lg : Logger) (s : String) (t : Bool) (ts : String) : Logger × List String :=
  let time := if t then " " ++ ts else ""
  ({ lg with logbook := lg.logbook ++ "[" ++ s ++ "]" ++ time ++ "\n" },
   if lg.level < 1 then [s] else [])

/-- Logger.log on a single message (the list branch maps this over its
elements).  Prints when level < 1; always appends to the logbook. -/
def log (lg : Logger) (msg : String) (t : Bool) (ts : String) : Logger × List String :=
  let printed := if lg.level < 1 then [msg] else []
  let msg2 := if t then ts ++ " " ++ msg else msg
  ({ lg with logbook := lg.logbook ++ " " ++ msg2 ++ "\n" }, printed)

/-- Logger.warning on a single message.  The console print and the w_count
increment are both inside the same if self.level < 2 block; the logbook
append is unconditional. -/
def warning (lg : Logger) (msg : String) (t : Bool) (ts : String) : Logger × List String :=
  let (lg1, printed) :=
    if lg.level < 2 then
      ({ lg with w_count := lg.w_count + 1 }, ["WARNING:" ++ msg])
    else (lg, [])
  let msg2 := if t then ts ++ " " ++ msg else msg
  ({ lg1 with logbook := lg1.logbook ++ " " ++ msg2 ++ "\n" }, printed)

end Logger

/-- Shorthand used by the quality-control module: l.log(msg) with the default
t=False, discarding console output. -/
def logM (lg : Logger) (msg : String) : Logger :=
  (lg.log msg false "").1

/-- Shorthand: l.warning(msg) with the default t=False, discarding console
output. -/
def warnM (lg : Logger) (msg : String) : Logger :=
  (lg.warning msg false "").1

/-- Shorthand: l.section(msg) with the default t=False. -/
def sectM (lg : Logger) (msg : String) : Logger :=
  (lg.section' msg false "").1

/-! ### The ADCP dataset

Model of the xarray.Dataset produced by loader.init_dataset and consumed by
adcp_quality_control.  Variables that init_dataset may drop are Options;
u, v, w, e and the depth/time coordinates are always present.  Dataset
attributes used by the quality control are separate fields (the loader
always sets beam_angle and orientation).  Note that init_dataset creates no
variable named uship or vship (they are commented out in the source). -/
structure Dataset where
  depth : List ℚ
  ntime : ℕ
  u : Grid FVal
  v : Grid FVal
  w : Grid FVal
  e : Grid FVal
  amp1 : Option (Grid FVal)
  amp2 : Option (Grid FVal)
  amp3 : Option (Grid FVal)
  amp4 : Option (Grid FVal)
  corr1 : Option (Grid FVal)
  corr2 : Option (Grid FVal)
  corr3 : Option (Grid FVal)
  corr4 : Option (Grid FVal)
  pg : Option (Grid FVal)
  vb_vel : Option (Grid FVal)
  vb_amp : Option (Grid FVal)
  vb_corr : Option (Grid FVal)
  vb_pg : Option (Grid FVal)
  pres : Option (List FVal)
  temperature : Option (List FVal)
  roll_ : Option (List FVal)
  pitch : Option (List FVal)
  bt_u : Option (List FVal)
  bt_v : Option (List FVal)
  bt_w : Option (List FVal)
  bt_depth : Option (List FVal)
  u_ship : Option (List FVal)
  v_ship : Option (List FVal)
  lon : Option (List FVal)
  xducer_depth : Option (List FVal)
  attr_beam_angle : ℚ
  attr_orientation : String
  attr_xducer_depth : Option ℚ
deriving DecidableEq, Repr

/-- Python exceptions that the modelled code can raise. -/
inductive PyError where
  | attributeError
  | valueError
  | nameError
  | keyError
  | coordinateSystemError
deriving DecidableEq, Repr

/-- Parameters abstracting library code that lives outside the three source
files, plus uninitialized memory read by np.greater(a, b, where=mask)
called without an out argument (the entries where mask is False are
unspecified). -/
structure PyEnv where
  junkH : Grid Bool
  junkV : Grid Bool
  junkE : Grid Bool
  rollDev : List FVal → List FVal
  pitchDev : List FVal → List FVal
  cosQ : ℚ → ℚ

/-! ### magtogoek/adcp/quality_control.py : module constants -/

def IMPLAUSIBLE_VEL_TRESHOLD : ℚ := 15

def MIN_TEMPERATURE : ℚ := -2

def MAX_TEMPERATURE : ℚ := 32

def MIN_PRESSURE : ℚ := 0

def MAX_PRESSURE : ℚ := 10000

/-! ### Individual QC tests (quality_control.py lines 366-553) -/

/-- correlation_test (lines 366-379).  When all four corr variables are
present, a cell fails when all four are below the threshold.  When one is
missing, the code calls l.warnings(...), but utils.Logger has no attribute
named warnings, so Python raises AttributeError before the all-False mask
can be returned. -/
def correlation_test (ds : Dataset) (threshold : ℚ) : Except PyError (Grid Bool) :=
  match ds.corr1, ds.corr2, ds.corr3, ds.corr4 with
  | some c1, some c2, some c3, some c4 =>
      .ok (gridIdxMap (fun d t x =>
        x.lt threshold && (gridGet c2 .nan d t).lt threshold &&
        (gridGet c3 .nan d t).lt threshold && (gridGet c4 .nan d t).lt threshold) c1)
  | _, _, _, _ => .error .attributeError

/-- amplitude_test (lines 382-394), same structure as correlation_test
including the l.warnings AttributeError in the missing-variable branch. -/
def amplitude_test (ds : Dataset) (threshold : ℚ) : Except PyError (Grid Bool) :=
  match ds.amp1, ds.amp2, ds.amp3, ds.amp4 with
  | some a1, some a2, some a3, some a4 =>
      .ok (gridIdxMap (fun d t x =>
        x.lt threshold && (gridGet a2 .nan d t).lt threshold &&
        (gridGet a3 .nan d t).lt threshold && (gridGet a4 .nan d t).lt threshold) a1)
  | _, _, _, _ => .error .attributeError

/-- percentgood_test (lines 397-404); the missing-variable branch also calls
the nonexistent l.warnings. -/
def percentgood_test (ds : Dataset) (threshold : ℚ) : Except PyError (Grid Bool) :=
  match ds.pg with
  | some pgv => .ok (gridMap (fun x => x.lt threshold) pgv)
  | none => .error .attributeError

/-- roll_test (lines 407-417) returns a time-vector mask: the circular
distance of each roll sample from the circular mean exceeds the threshold.
env.rollDev abstracts circular_distance(roll, circmean(roll)), which lives
in scipy and magtogoek.tools, outside the three source files.  The
missing-variable branch calls the nonexistent l.warnings. -/
def roll_test (env : PyEnv) (ds : Dataset) (thres : ℚ) : Except PyError (List Bool) :=
  match ds.roll_ with
  | some r => .ok ((env.rollDev r).map (fun x => x.gt thres))
  | none => .error .attributeError

/-- pitch_test (lines 420-434), like roll_test with env.pitchDev. -/
def pitch_test (env : PyEnv) (ds : Dataset) (thres : ℚ) : Except PyError (List Bool) :=
  match ds.pitch with
  | some p => .ok ((env.pitchDev p).map (fun x => x.gt thres))
  | none => .error .attributeError

/-- horizontal_vel_test (lines 437-449):
np.greater(sqrt(u^2 + v^2), thres, where=isfinite(sqrt(u^2 + v^2))) without
an out argument: where the speed is not finite the result is uninitialized
memory, modelled by env.junkH.  For a finite sum of squares s,
sqrt(s) > thres iff thres < 0 or s > thres^2. -/
def horizontal_vel_test (env : PyEnv) (ds : Dataset) (thres : ℚ) : Grid Bool :=
  gridIdxMap (fun d t x =>
    match FVal.add (FVal.mul x x)
        (FVal.mul (gridGet ds.v .nan d t) (gridGet ds.v .nan d t)) with
    | .fin s => decide (thres < 0) || decide (thres * thres < s)
    | _ => gridGet env.junkH false d t) ds.u

/-- vertical_vel_test (lines 452-459):
np.greater(abs(w), thres, where=isfinite(w)) without out; non-finite w cells
read uninitialized memory (env.junkV). -/
def vertical_vel_test (env : PyEnv) (ds : Dataset) (thres : ℚ) : Grid Bool :=
  gridIdxMap (fun d t x =>
    match x with
    | .fin q => decide (thres < |q|)
    | _ => gridGet env.junkV false d t) ds.w

/-- error_vel_test (lines 462-469):
np.greater(abs(e), thres, where=isfinite(w)) — the where mask is on w, not
on e, exactly as in the source. -/
def error_vel_test (env : PyEnv) (ds : Dataset) (thres : ℚ) : Grid Bool :=
  gridIdxMap (fun d t x =>
    if (gridGet ds.w .nan d t).isfin then (FVal.abs x).gt thres
    else gridGet env.junkE false d t) ds.e

/-- One channel of vertical_beam_test: vb_test[channel < threshold] = True
when the channel is present and the threshold truthy. -/
def vbStep (g0 : Grid Bool) (o : Option (Grid FVal)) (th : ℚ) : Grid Bool :=
  match o with
  | some a =>
      if th ≠ 0 then gridIdxMap (fun d t x => x || (gridGet a .nan d t).lt th) g0
      else g0
  | none => g0

/-- vertical_beam_test (lines 472-484): starts from an all-False mask and
sets cells to True where any of vb_amp / vb_corr / vb_pg that is present
(and whose threshold is truthy) is below its threshold. -/
def vertical_beam_test (ds : Dataset) (amp_thres corr_thres pg_thres : ℚ) : Grid Bool :=
  vbStep (vbStep (vbStep (gridFalse ds.depth.length ds.ntime)
    ds.vb_amp amp_thres) ds.vb_corr corr_thres) ds.vb_pg pg_thres

/-- temperature_test (lines 544-548). -/
def temperature_test (temp : List FVal) : List Bool :=
  temp.map (fun x => x.gt MAX_TEMPERATURE || x.lt MIN_TEMPERATURE)

/-- pressure_test (lines 551-553). -/
def pressure_test (pr : List FVal) : List Bool :=
  pr.map (fun x => x.gt MAX_PRESSURE || x.lt MIN_PRESSURE)

/-- Result of sidelobe_test (lines 487-541): the function can fall off the
end (Python None), return the literal False, or return a boolean grid. -/
inductive SlRes where
  | noneR : SlRes
  | falseR : SlRes
  | grid : Grid Bool → SlRes
deriving DecidableEq, Repr

/-- sidelobe_test (lines 487-541).  env.cosQ abstracts
np.cos(np.radians(beam_angle)).  Both attributes must be truthy; the
transducer depth comes from the xducer_depth variable when it is not also
an attribute, else from the attribute; downward orientation uses the
bottom_depth argument when truthy, else the bt_depth variable.
Cell (d, t) fails when depth[d] > xducer + (bottom - xducer) * cos(angle)
(downward) or depth[d] < xducer * (1 - cos(angle)) (upward). -/
def sidelobe_test (env : PyEnv) (ds : Dataset) (bottom_depth : Option ℚ)
    (lg : Logger) : SlRes × Logger :=
  if ds.attr_beam_angle ≠ 0 ∧ ds.attr_orientation ≠ "" then
    let cos_angle := env.cosQ ds.attr_beam_angle
    let xd? : Option (List FVal) :=
      match ds.xducer_depth, ds.attr_xducer_depth with
      | some v, none => some v
      | _, some a => some (List.replicate ds.ntime (.fin a))
      | none, none => none
    match xd? with
    | none =>
        (.falseR, warnM lg "Sidelobes correction aborded. Adcp depth xducer_depth not provided.")
    | some xd =>
      if ds.attr_orientation = "down" then
        let bd? : Option (List FVal) :=
          match bottom_depth with
          | some b => if b ≠ 0 then some (List.replicate ds.ntime (.fin b)) else ds.bt_depth
          | none => ds.bt_depth
        match bd? with
        | none =>
            (.falseR, warnM lg "Sidelobes correction aborded. Bottom depth not found or provided.")
        | some bd =>
            let max_depth := fun t => FVal.add (xd.getD t .nan)
              (FVal.mul (FVal.sub (bd.getD t .nan) (xd.getD t .nan)) (.fin cos_angle))
            (.grid (ds.depth.map (fun dq =>
              (List.range ds.ntime).map (fun t => qGtF dq (max_depth t)))), lg)
      else if ds.attr_orientation = "up" then
        let min_depth := fun t => FVal.mul (xd.getD t .nan) (.fin (1 - cos_angle))
        (.grid (ds.depth.map (fun dq =>
          (List.range ds.ntime).map (fun t => qLtF dq (min_depth t)))), lg)
      else
        (.falseR, warnM lg "Can not correct for sidelobes, adcp_orientation parameter not set.")
  else (.noneR, lg)

/-! ### motion_correction and set_implausible_vel_to_nan (lines 322-363) -/

/-- dataset[field] -= dataset[bt_field].values: the (time,) bottom-track
vector is broadcast across the depth dimension (numpy requires the vector
length to equal the time dimension; theorems assume matching shapes). -/
def broadcastSub (g : Grid FVal) (vec : List FVal) : Grid FVal :=
  gridIdxMap (fun _ t x => FVal.sub x (vec.getD t .nan)) g

/-- motion_correction (lines 322-353).  Mode bt: subtract the bottom-track
velocity from u, v, w when bt_u, bt_v, bt_w are all present, else warn and
leave the dataset unchanged.  Mode nav: when u_ship and v_ship are present
the code reads dataset.lon (AttributeError when the loader dropped lon) and
then assigns to dataset["uship"], a variable init_dataset never creates, so
Python raises KeyError; when they are absent it warns and leaves the
dataset unchanged.  Any other mode warns and leaves the dataset
unchanged. -/
def motion_correction (ds : Dataset) (mode : String) (lg : Logger) :
    Except PyError (Dataset × Logger) :=
  if mode = "bt" then
    match ds.bt_u, ds.bt_v, ds.bt_w with
    | some bu, some bv, some bw =>
        .ok ({ ds with u := broadcastSub ds.u bu,
                       v := broadcastSub ds.v bv,
                       w := broadcastSub ds.w bw },
             logM lg "Motion correction carried out with bottom track")
    | _, _, _ =>
        .ok (ds, warnM lg "Motion correction aborded. Bottom velocity (bt_u, bt_v, bt_w) missing")
  else if mode = "nav" then
    match ds.u_ship, ds.v_ship with
    | some _, some _ =>
        match ds.lon with
        | none => .error .attributeError
        | some _ => .error .keyError
    | _, _ =>
        .ok (ds, warnM lg "Motion correction aborded. Navigation velocity (u_ship, v_ship) missing")
  else
    .ok (ds, warnM lg "Motion correction aborded. Motion correction mode invalid. (bt or nav)")

/-- The plausibility predicate of set_implausible_vel_to_nan:
(x > -thres) & (x < thres); false on nan and on both infinities. -/
def plausF (x : FVal) (thres : ℚ) : Bool :=
  x.gt (-thres) && x.lt thres

/-- The elementwise mask (dataset[v] > -thres) & (dataset[v] < thres). -/
def plausMask (g : Grid FVal) (thres : ℚ) : Grid Bool :=
  gridMap (fun x => plausF x thres) g

/-- DataArray.where(mask): keep the cell where the mask holds, nan
elsewhere. -/
def whereKeep (g : Grid FVal) (m : Grid Bool) : Grid FVal :=
  gridIdxMap (fun d t x => if gridGet m false d t then x else .nan) g

/-- set_implausible_vel_to_nan (lines 356-363): three passes, one per
component; each pass computes the plausibility mask from the current value
of that component and applies it to all three components. -/
def set_implausible_vel_to_nan (ds : Dataset) (thres : ℚ) : Dataset :=
  let m1 := plausMask ds.u thres
  let u1 := whereKeep ds.u m1
  let v1 := whereKeep ds.v m1
  let w1 := whereKeep ds.w m1
  let m2 := plausMask v1 thres
  let u2 := whereKeep u1 m2
  let v2 := whereKeep v1 m2
  let w2 := whereKeep w1 m2
  let m3 := plausMask w2 thres
  { ds with u := whereKeep u2 m3, v := whereKeep v2 m3, w := whereKeep w2 m3 }

/-! ### adcp_quality_control (lines 112-319) -/

/-- Parameters of adcp_quality_control with their Python defaults. -/
structure QCParams where
  amp_th : ℚ := 30
  corr_th : ℚ := 64
  pg_th : ℚ := 90
  roll_th : ℚ := 20
  pitch_th : ℚ := 20
  horizontal_vel_th : ℚ := 5
  vertical_vel_th : ℚ := 5
  error_vel_th : ℚ := 5
  motion_correction_mode : Option String := none
  sidelobes_correction : Bool := false
  bottom_depth : Option ℚ := none
deriving Repr

/-- Python truthiness of the motion_correction_mode argument. -/
def truthyMode : Option String → Bool
  | none => false
  | some s => s ≠ ""

/-- Mutable state threaded through the body of adcp_quality_control:
vel_flags, the logger, and the QC variables written for pres, temperature
and the fifth beam. -/
structure QCState where
  flags : Grid ℤ
  lg : Logger
  presQC : Option (List ℤ)
  tempQC : Option (List ℤ)
  vbQC : Option (Grid ℤ)
deriving DecidableEq, Repr

/-- Lines 206-210: amplitude test, vel_flags[amp_flag] = 3. -/
def ampStage (ds : Dataset) (p : QCParams) (st : QCState) : Except PyError QCState :=
  if p.amp_th ≠ 0 then
    let lg1 := logM st.lg "amplitude threshold"
    match amplitude_test ds p.amp_th with
    | .error err => .error err
    | .ok m => .ok { st with flags := maskAssign st.flags m 3, lg := lg1 }
  else .ok st

/-- Lines 212-216: correlation test, vel_flags[corr_flag] = 3. -/
def corrStage (ds : Dataset) (p : QCParams) (st : QCState) : Except PyError QCState :=
  if p.corr_th ≠ 0 then
    let lg1 := logM st.lg "correlation threshold"
    match correlation_test ds p.corr_th with
    | .error err => .error err
    | .ok m => .ok { st with flags := maskAssign st.flags m 3, lg := lg1 }
  else .ok st

/-- Lines 218-222: percent-good test, vel_flags[pg_flag] = 3. -/
def pgStage (ds : Dataset) (p : QCParams) (st : QCState) : Except PyError QCState :=
  if p.pg_th ≠ 0 then
    let lg1 := logM st.lg "percentgood threshold"
    match percentgood_test ds p.pg_th with
    | .error err => .error err
    | .ok m => .ok { st with flags := maskAssign st.flags m 3, lg := lg1 }
  else .ok st

/-- Lines 224-228: horizontal velocity test, flags to 3. -/
def horizStage (env : PyEnv) (ds : Dataset) (p : QCParams) (st : QCState) : QCState :=
  if p.horizontal_vel_th ≠ 0 then
    { st with flags := maskAssign st.flags (horizontal_vel_test env ds p.horizontal_vel_th) 3,
              lg := logM st.lg "horizontal velocity threshold" }
  else st

/-- Lines 230-234: vertical velocity test, flags to 3. -/
def vertStage (env : PyEnv) (ds : Dataset) (p : QCParams) (st : QCState) : QCState :=
  if p.vertical_vel_th ≠ 0 then
    { st with flags := maskAssign st.flags (vertical_vel_test env ds p.vertical_vel_th) 3,
              lg := logM st.lg "vertical velocity threshold" }
  else st

/-- Lines 236-240: error velocity test, flags to 3. -/
def errStage (env : PyEnv) (ds : Dataset) (p : QCParams) (st : QCState) : QCState :=
  if p.error_vel_th ≠ 0 then
    { st with flags := maskAssign st.flags (error_vel_test env ds p.error_vel_th) 3,
              lg := logM st.lg "error velocity threshold" }
  else st

/-- Lines 242-246: roll test; the time mask is tiled across depth, flags to
3. -/
def rollStage (env : PyEnv) (ds : Dataset) (p : QCParams) (st : QCState) :
    Except PyError QCState :=
  if p.roll_th ≠ 0 then
    let lg1 := logM st.lg "roll threshold"
    match roll_test env ds p.roll_th with
    | .error err => .error err
    | .ok rowMask =>
        .ok { st with flags := maskAssign st.flags (List.replicate ds.depth.length rowMask) 3,
                      lg := lg1 }
  else .ok st

/-- Lines 248-252: pitch test; the time mask is tiled across depth, flags to
3. -/
def pitchStage (env : PyEnv) (ds : Dataset) (p : QCParams) (st : QCState) :
    Except PyError QCState :=
  if p.pitch_th ≠ 0 then
    let lg1 := logM st.lg "pitch threshold"
    match pitch_test env ds p.pitch_th with
    | .error err => .error err
    | .ok rowMask =>
        .ok { st with flags := maskAssign st.flags (List.replicate ds.depth.length rowMask) 3,
                      lg := lg1 }
  else .ok st

/-- Lines 254-259: the sidelobe stage.  The result of sidelobe_test is used
as a bare truth value (if sidelobe_flag:); for a boolean ndarray of more
than one element Python raises ValueError (ambiguous truth value).  A
one-element array uses its single element; None and False skip the stage;
an empty array is falsy in the numpy version the repo targets. -/
def slStage (env : PyEnv) (ds : Dataset) (p : QCParams) (st : QCState) :
    Except PyError QCState :=
  if p.sidelobes_correction then
    let (s, lg1) := sidelobe_test env ds p.bottom_depth st.lg
    match s with
    | .grid g =>
        if gridSize g > 1 then .error .valueError
        else if gridSize g = 1 then
          if g.flatten.getD 0 false then
            .ok { st with flags := maskAssign st.flags g 4,
                          lg := logM lg1 "Sidelobe correction carried out." }
          else .ok { st with lg := lg1 }
        else .ok { st with lg := lg1 }
    | _ => .ok { st with lg := lg1 }
  else .ok st

/-- Lines 261-271: fixed pressure range test; writes pres_QC and forces
flag 4 across depth at failing time samples. -/
def presStage (ds : Dataset) (st : QCState) : QCState :=
  match ds.pres with
  | some pr =>
      let pflags := pressure_test pr
      { st with flags := maskAssign st.flags (List.replicate ds.depth.length pflags) 4,
                presQC := some (pflags.map (fun b => if b then (4 : ℤ) else 1)),
                lg := logM st.lg "Good pressure range" }
  | none => st

/-- Lines 273-280: fixed temperature range test; writes temperature_QC only
(vel_flags is not touched). -/
def tempStage (ds : Dataset) (st : QCState) : QCState :=
  match ds.temperature with
  | some temp =>
      { st with tempQC := some ((temperature_test temp).map (fun b => if b then (4 : ℤ) else 1)),
                lg := logM st.lg "Good temperature range" }
  | none => st

/-- Lines 281-295: fifth-beam stage; vb_vel_QC = vb_flag * 3, that is 3
where the test fails and 0 elsewhere. -/
def vbStage (ds : Dataset) (p : QCParams) (st : QCState) : QCState :=
  match ds.vb_vel with
  | some _ =>
      let m := vertical_beam_test ds p.amp_th p.corr_th p.pg_th
      { st with vbQC := some (gridMap (fun b => if b then (3 : ℤ) else 0) m),
                lg := logM st.lg "Fifth beam quality control carried out" }
  | none => st

/-- The test section of adcp_quality_control, lines 202-295, in source
order. -/
def qcTests (env : PyEnv) (p : QCParams) (ds : Dataset) (st0 : QCState) :
    Except PyError QCState :=
  match ampStage ds p st0 with
  | .error err => .error err
  | .ok stA =>
  match corrStage ds p stA with
  | .error err => .error err
  | .ok stB =>
  match pgStage ds p stB with
  | .error err => .error err
  | .ok stC =>
  let stD := errStage env ds p (vertStage env ds p (horizStage env ds p stC))
  match rollStage env ds p stD with
  | .error err => .error err
  | .ok stE =>
  match pitchStage env ds p stE with
  | .error err => .error err
  | .ok stF =>
  match slStage env ds p stF with
  | .error err => .error err
  | .ok stG => .ok (vbStage ds p (tempStage ds (presStage ds stG)))

/-- Lines 297-299: missing_vel = np.bitwise_or(*(~isfinite for u, v, w)).
The generator yields three arrays and np.bitwise_or takes two operands, so
the third array (the w mask) is consumed as the ufunc out argument: the
computed value is (~isfinite(u)) | (~isfinite(v)) only. -/
def missingVelMask (ds : Dataset) : Grid Bool :=
  gridIdxMap (fun d t x => !x.isfin || !(gridGet ds.v .nan d t).isfin) ds.u

/-- The result of adcp_quality_control: the modified dataset plus the QC
variables it writes (modelled as separate fields rather than dataset
entries). -/
structure QCResult where
  ds : Dataset
  u_QC : Grid ℤ
  v_QC : Grid ℤ
  w_QC : Grid ℤ
  pres_QC : Option (List ℤ)
  temperature_QC : Option (List ℤ)
  vb_vel_QC : Option (Grid ℤ)
  lg : Logger
deriving DecidableEq, Repr

/-- adcp_quality_control (lines 112-319): reset/section, optional motion
correction, the implausible-velocity pass, vel_flags = ones, the test
stages, then the final missing-value pass (vel_flags[missing] = 9) and the
write of the same flag grid to u_QC, v_QC and w_QC. -/
def adcp_quality_control (env : PyEnv) (p : QCParams) (ds : Dataset) (lg : Logger) :
    Except PyError QCResult :=
  let lg0 := sectM (Logger.reset lg) "Quality Control"
  match (if truthyMode p.motion_correction_mode then
           motion_correction ds (p.motion_correction_mode.getD "") lg0
         else .ok (ds, lg0)) with
  | .error err => .error err
  | .ok (ds1, lg1) =>
    let ds2 := set_implausible_vel_to_nan ds1 IMPLAUSIBLE_VEL_TRESHOLD
    let st0 : QCState := ⟨gridOnes ds2.depth.length ds2.ntime, lg1, none, none, none⟩
    match qcTests env p ds2 st0 with
    | .error err => .error err
    | .ok st =>
      let flagsF := maskAssign st.flags (missingVelMask ds2) 9
      .ok ⟨ds2, flagsF, flagsF, flagsF, st.presQC, st.tempQC, st.vbQC,
           logM st.lg "Quality Control was carried out"⟩

/-! ### magtogoek/adcp/loader.py -/

/-- Does the pattern occur at the head of the character list? -/
def charsStartWith : List Char → List Char → Bool
  | [], _ => true
  | _ :: _, [] => false
  | p :: ps, c :: cs => p == c && charsStartWith ps cs

/-- Does the pattern occur anywhere in the character list (Python
pattern in s)? -/
def charsContain (pat s : List Char) : Bool :=
  match s with
  | [] => charsStartWith pat []
  | _ :: cs => charsStartWith pat s || charsContain pat cs

/-- The loader module defines its own Logger class (loader.py lines 66-96):
no verbosity level, and log() counts a message as a warning exactly when it
contains the substring WARNING:. -/
structure LoaderLogger where
  logbook : String
  w_count : ℕ
deriving DecidableEq, Repr

/-- loader Logger.log on a single message with t=False: increments w_count
iff the message contains WARNING:, and always appends to the logbook. -/
def loaderLog (lg : LoaderLogger) (msg : String) : LoaderLogger :=
  if charsContain "WARNING:".data msg.data then
    { logbook := lg.logbook ++ " " ++ msg ++ "\n", w_count := lg.w_count + 1 }
  else
    { lg with logbook := lg.logbook ++ " " ++ msg ++ "\n" }

/-- np.diff for a 1-d vector. -/
def listDiffs (l : List ℚ) : List ℚ :=
  List.zipWith (fun a b => b - a) l l.tail

/-- dday_to_datetime64 (loader.py lines 432-452): fractional days since
year_base-01-01T00:00:00 become timestamps; strftime truncates to whole
seconds.  A timestamp is modelled as the pair (year_base, whole seconds
since year_base-01-01T00:00:00). -/
def dday_to_datetime64 (dday : List ℚ) (yearbase : ℤ) : List (ℤ × ℤ) :=
  dday.map (fun d => (yearbase, ⌊d * 86400⌋))

/-- The single warning message of the bad-time branch.  In the source the
two f-strings in the list literal are not separated by a comma, so Python
concatenates the adjacent literals and l.log receives a one-element
list. -/
def badTimeMsg (yearbase : ℤ) : String :=
  "WARNING: The dday vector either contains negative values or is not monotonically increasing." ++
  "WARNING: Time was replaced by a default datetime vector: 1 second timestep since " ++
  toString yearbase

/-- Result of the dday-to-time section of load_rdi_binary. -/
structure DdayResult where
  time : List (ℤ × ℤ)
  ddayVar : Option (List ℚ)
  lg : LoaderLogger
deriving DecidableEq, Repr

/-- The dday handling of load_rdi_binary (lines 165-178 together with lines
314-316): when dday has a negative entry or a negative first difference,
log one warning, build a synthetic time vector i/(3600*24) fractional days
for i in range(len(dday)), and retain the raw dday vector in the output
dataset; otherwise convert dday itself. -/
def ddayStage (dday : List ℚ) (yearbase : ℤ) (lg : LoaderLogger) : DdayResult :=
  if dday.any (fun x => decide (x < 0)) || (listDiffs dday).any (fun x => decide (x < 0)) then
    { time := dday_to_datetime64
        ((List.range dday.length).map (fun (i : ℕ) => (i : ℚ) / (3600 * 24))) yearbase,
      ddayVar := some dday,
      lg := loaderLog lg (badTimeMsg yearbase) }
  else
    { time := dday_to_datetime64 dday yearbase, ddayVar := none, lg := lg }

/-- The slice of Multiread output that coordsystem2earth uses. -/
structure CData where
  coordsystem : String
  convex : Bool
  angle : ℚ
  vel : Grid FVal
  bt_vel : List FVal
  heading : List FVal
  roll_ : List FVal
  pitch : List FVal
deriving DecidableEq, Repr

/-- Abstract parameters for the pycurrents transform functions (outside the
three source files) and np.round(.., decimals=3). -/
structure TransformEnv where
  beam_to_xyz : Grid FVal → Grid FVal
  bt_beam_to_xyz : List FVal → List FVal
  rdi_xyz_enu : Grid FVal → List FVal → List FVal → List FVal → String → Grid FVal
  bt_rdi_xyz_enu : List FVal → List FVal → List FVal → List FVal → String → List FVal
  round3 : FVal → FVal

/-- (arr == 0).all() for a float vector; nan and the infinities are not
equal to 0. -/
def allZeroF (l : List FVal) : Bool :=
  l.all (fun x => x == .fin 0)

/-- coordsystem2earth (loader.py lines 455-522).  The guard at lines
485-488 constructs CoordinateSystemError(...) but does not raise it
(the raise keyword is missing), so an unrecognized coordinate system has no
effect here.  The local bt_xyze is only bound in the beam branch (the
initial tuple assignment at line 490 binds the different name xyze_bt), so
both of the following branches raise NameError when the coordinate system
is not beam. -/
def coordsystem2earth (env : TransformEnv) (data : CData) (orientation : String) :
    Except PyError CData :=
  let pair : Grid FVal × Option (List FVal) :=
    if data.coordsystem = "beam" then
      (env.beam_to_xyz data.vel, some (env.bt_beam_to_xyz data.bt_vel))
    else (data.vel, none)
  let xyze := pair.1
  let bt_xyze := pair.2
  if allZeroF data.heading || allZeroF data.roll_ || allZeroF data.pitch then
    match bt_xyze with
    | none => .error .nameError
    | some b =>
        .ok { data with coordsystem := "xyz",
                        vel := gridMap env.round3 xyze,
                        bt_vel := b.map env.round3 }
  else
    let enu := env.rdi_xyz_enu xyze data.heading data.pitch data.roll_ orientation
    match bt_xyze with
    | none => .error .nameError
    | some b =>
        .ok { data with coordsystem := "earth",
                        vel := gridMap env.round3 enu,
                        bt_vel := (env.bt_rdi_xyz_enu b data.heading data.pitch data.roll_
                          orientation).map env.round3 }

/-- The coordinate-system section of load_rdi_binary (lines 204-214): the
transformation runs only when the reported coordinate system is not already
earth. -/
def loadCoordStage (env : TransformEnv) (data : CData) (orientation : String) :
    Except PyError CData :=
  if data.coordsystem ≠ "earth" then coordsystem2earth env data orientation
  else .ok data

/-! ### Supporting lemmas: FVal and the implausible-velocity pass -/

theorem isfin_sub_false {a : FVal} (b : FVal) (h : a.isfin = false) :
    (FVal.sub a b).isfin = false := by
  cases a <;> cases b <;> simp_all [FVal.sub, FVal.add, FVal.neg, FVal.isfin]

theorem plausF_nonfin {x : FVal} (h : x.isfin = false) (th : ℚ) :
    plausF x th = false := by
  cases x <;> simp_all [plausF, FVal.gt, FVal.lt, FVal.isfin]

theorem plausF_nan (th : ℚ) : plausF .nan th = false := rfl

theorem plausF_true {x : FVal} {th : ℚ} (h : plausF x th = true) :
    ∃ q : ℚ, x = .fin q ∧ -th < q ∧ q < th := by
  cases x <;> simp_all [plausF, FVal.gt, FVal.lt]

/-- Pure cell-level model of the three passes of
set_implausible_vel_to_nan. -/
def implCell (gu gv gw : FVal) (th : ℚ) : FVal × FVal × FVal :=
  let m1 := plausF gu th
  let u1 := if m1 then gu else .nan
  let v1 := if m1 then gv else .nan
  let w1 := if m1 then gw else .nan
  let m2 := plausF v1 th
  let u2 := if m2 then u1 else .nan
  let v2 := if m2 then v1 else .nan
  let w2 := if m2 then w1 else .nan
  let m3 := plausF w2 th
  (if m3 then u2 else .nan, if m3 then v2 else .nan, if m3 then w2 else .nan)

theorem implCell_nonfin {gu gv gw : FVal} (th : ℚ)
    (h : gu.isfin = false ∨ gv.isfin = false ∨ gw.isfin = false) :
    implCell gu gv gw th = (.nan, .nan, .nan) := by
  rcases h with h | h | h
  · simp [implCell, plausF_nonfin h, plausF_nan]
  · cases hm1 : plausF gu th with
    | false => simp [implCell, hm1, plausF_nan]
    | true => simp [implCell, hm1, plausF_nonfin h, plausF_nan]
  · cases hm1 : plausF gu th with
    | false => simp [implCell, hm1, plausF_nan]
    | true =>
      cases hm2 : plausF gv th with
      | false => simp [implCell, hm1, hm2, plausF_nan]
      | true => simp [implCell, hm1, hm2, plausF_nonfin h]

theorem implCell_dichotomy (gu gv gw : FVal) (th : ℚ) :
    implCell gu gv gw th = (.nan, .nan, .nan) ∨
    (∃ qu qv qw : ℚ, implCell gu gv gw th = (.fin qu, .fin qv, .fin qw) ∧
      |qu| < th ∧ |qv| < th ∧ |qw| < th) := by
  cases hm1 : plausF gu th with
  | false => left; simp [implCell, hm1, plausF_nan]
  | true =>
    cases hm2 : plausF gv th with
    | false => left; simp [implCell, hm1, hm2, plausF_nan]
    | true =>
      cases hm3 : plausF gw th with
      | false => left; simp [implCell, hm1, hm2, hm3]
      | true =>
        right
        obtain ⟨qu, hqu, hu1, hu2⟩ := plausF_true hm1
        obtain ⟨qv, hqv, hv1, hv2⟩ := plausF_true hm2
        obtain ⟨qw, hqw, hw1, hw2⟩ := plausF_true hm3
        subst hqu; subst hqv; subst hqw
        refine ⟨qu, qv, qw, ?_, ?_, ?_, ?_⟩
        · simp [implCell, hm1, hm2, hm3]
        · rw [abs_lt]; exact ⟨by linarith, hu2⟩
        · rw [abs_lt]; exact ⟨by linarith, hv2⟩
        · rw [abs_lt]; exact ⟨by linarith, hw2⟩

theorem setImpl_cell (ds : Dataset) (thres : ℚ) {D T d t : ℕ}
    (hu : gridShaped ds.u D T) (hv : gridShaped ds.v D T) (hw : gridShaped ds.w D T)
    (hd : d < D) (ht : t < T) :
    (gridGet (set_implausible_vel_to_nan ds thres).u .nan d t,
     gridGet (set_implausible_vel_to_nan ds thres).v .nan d t,
     gridGet (set_implausible_vel_to_nan ds thres).w .nan d t) =
    implCell (gridGet ds.u .nan d t) (gridGet ds.v .nan d t)
      (gridGet ds.w .nan d t) thres := by
  obtain ⟨hdu, htu⟩ := shapedIdx hu hd ht
  obtain ⟨hdv, htv⟩ := shapedIdx hv hd ht
  obtain ⟨hdw, htw⟩ := shapedIdx hw hd ht
  have hsu1 : gridShaped (whereKeep ds.u (plausMask ds.u thres)) D T := shaped_gridIdxMap _ hu
  have hsv1 : gridShaped (whereKeep ds.v (plausMask ds.u thres)) D T := shaped_gridIdxMap _ hv
  have hsw1 : gridShaped (whereKeep ds.w (plausMask ds.u thres)) D T := shaped_gridIdxMap _ hw
  obtain ⟨hdu1, htu1⟩ := shapedIdx hsu1 hd ht
  obtain ⟨hdv1, htv1⟩ := shapedIdx hsv1 hd ht
  obtain ⟨hdw1, htw1⟩ := shapedIdx hsw1 hd ht
  have hsu2 : gridShaped (whereKeep (whereKeep ds.u (plausMask ds.u thres))
      (plausMask (whereKeep ds.v (plausMask ds.u thres)) thres)) D T :=
    shaped_gridIdxMap _ hsu1
  have hsv2 : gridShaped (whereKeep (whereKeep ds.v (plausMask ds.u thres))
      (plausMask (whereKeep ds.v (plausMask ds.u thres)) thres)) D T :=
    shaped_gridIdxMap _ hsv1
  have hsw2 : gridShaped (whereKeep (whereKeep ds.w (plausMask ds.u thres))
      (plausMask (whereKeep ds.v (plausMask ds.u thres)) thres)) D T :=
    shaped_gridIdxMap _ hsw1
  obtain ⟨hdu2, htu2⟩ := shapedIdx hsu2 hd ht
  obtain ⟨hdv2, htv2⟩ := shapedIdx hsv2 hd ht
  obtain ⟨hdw2, htw2⟩ := shapedIdx hsw2 hd ht
  have em1 : ∀ g : Grid FVal, ∀ hdg : d < g.length, ∀ htg : t < (g.getD d []).length,
      ∀ m : Grid FVal, ∀ hdm : d < m.length, ∀ htm : t < (m.getD d []).length,
      gridGet (whereKeep g (plausMask m thres)) .nan d t =
        if plausF (gridGet m .nan d t) thres then gridGet g .nan d t else .nan := by
    intro g hdg htg m hdm htm
    rw [whereKeep, gridGet_gridIdxMap _ g FVal.nan FVal.nan hdg htg,
        plausMask, gridGet_gridMap _ m FVal.nan false hdm htm]
  unfold set_implausible_vel_to_nan
  simp only
  rw [em1 _ hdu2 htu2 _ hdw2 htw2, em1 _ hdv2 htv2 _ hdw2 htw2,
      em1 _ hdw2 htw2 _ hdw2 htw2]
  rw [em1 _ hdu1 htu1 _ hdv1 htv1, em1 _ hdv1 htv1 _ hdv1 htv1,
      em1 _ hdw1 htw1 _ hdv1 htv1]
  rw [em1 _ hdu htu _ hdu htu, em1 _ hdv htv _ hdu htu, em1 _ hdw htw _ hdu htu]
  rfl

/-! ### Supporting lemmas: motion correction and the pipeline stages -/

theorem gridGet_out (g : Grid α) (dflt : α) (d t : ℕ)
    (h : ¬(d < g.length ∧ t < (g.getD d []).length)) :
    gridGet g dflt d t = dflt := by
  unfold gridGet
  by_cases hd : d < g.length
  · have ht : ¬ t < (g.getD d []).length := fun ht => h ⟨hd, ht⟩
    exact List.getD_eq_default _ _ (Nat.le_of_not_lt ht)
  · have h1 : g.getD d [] = [] := List.getD_eq_default _ _ (Nat.le_of_not_lt hd)
    rw [h1]
    simp

theorem getD_length_gridIdxMap (f : ℕ → ℕ → α → β) (g : Grid α) (d : ℕ) :
    ((gridIdxMap f g).getD d []).length = (g.getD d []).length := by
  by_cases hd : d < g.length
  · unfold gridIdxMap
    rw [getD_rowIdxMap (fun dd row => rowIdxMap (fun tt x => f dd tt x) 0 row)
      0 g d ([] : List α) ([] : List β) hd]
    rw [length_rowIdxMap]
  · have h1 : (gridIdxMap f g).getD d [] = [] :=
      List.getD_eq_default _ _ (by rw [length_gridIdxMap]; omega)
    have h2 : g.getD d [] = [] := List.getD_eq_default _ _ (Nat.le_of_not_lt hd)
    rw [h1, h2]
    rfl

theorem nonfin_broadcastSub (g : Grid FVal) (vec : List FVal) (d t : ℕ)
    (h : (gridGet g .nan d t).isfin = false) :
    (gridGet (broadcastSub g vec) .nan d t).isfin = false := by
  by_cases hin : d < g.length ∧ t < (g.getD d []).length
  · rw [broadcastSub, gridGet_gridIdxMap _ g FVal.nan FVal.nan hin.1 hin.2]
    exact isfin_sub_false _ h
  · have hout : ¬(d < (broadcastSub g vec).length ∧
        t < ((broadcastSub g vec).getD d []).length) := by
      rw [broadcastSub, length_gridIdxMap, getD_length_gridIdxMap]
      exact hin
    rw [gridGet_out _ _ _ _ hout]
    rfl

/-- Inversion of the optional motion-correction step at the head of
adcp_quality_control: either the dataset is returned unchanged, or mode bt
found all bottom-track variables and subtracted them from u, v, w. -/
theorem motionIf_cases (ds : Dataset) (lg0 : Logger) (mo : Option String)
    (ds1 : Dataset) (lg1 : Logger)
    (h : (if truthyMode mo then motion_correction ds (mo.getD "") lg0
          else .ok (ds, lg0)) = .ok (ds1, lg1)) :
    ds1 = ds ∨
    (∃ bu bv bw, ds.bt_u = some bu ∧ ds.bt_v = some bv ∧ ds.bt_w = some bw ∧
      ds1 = { ds with u := broadcastSub ds.u bu, v := broadcastSub ds.v bv,
                      w := broadcastSub ds.w bw }) := by
  by_cases hmo : truthyMode mo = true
  · rw [if_pos hmo] at h
    unfold motion_correction at h
    by_cases hbt : mo.getD "" = "bt"
    · rw [if_pos hbt] at h
      cases hbu : ds.bt_u with
      | none => rw [hbu] at h; simp at h; exact Or.inl h.1.symm
      | some bu =>
        rw [hbu] at h
        cases hbv : ds.bt_v with
        | none => rw [hbv] at h; simp at h; exact Or.inl h.1.symm
        | some bv =>
          rw [hbv] at h
          cases hbw : ds.bt_w with
          | none => rw [hbw] at h; simp at h; exact Or.inl h.1.symm
          | some bw =>
            rw [hbw] at h
            simp at h
            exact Or.inr ⟨bu, bv, bw, rfl, rfl, rfl, h.1.symm⟩
    · rw [if_neg hbt] at h
      by_cases hnav : mo.getD "" = "nav"
      · rw [if_pos hnav] at h
        cases hus : ds.u_ship with
        | none => rw [hus] at h; simp at h; exact Or.inl h.1.symm
        | some us =>
          rw [hus] at h
          cases hvs : ds.v_ship with
          | none => rw [hvs] at h; simp at h; exact Or.inl h.1.symm
          | some vs =>
            rw [hvs] at h
            cases hlon : ds.lon with
            | none => rw [hlon] at h; simp at h
            | some lonv => rw [hlon] at h; simp at h
      · rw [if_neg hnav] at h
        simp at h
        exact Or.inl h.1.symm
  · rw [if_neg hmo] at h
    simp at h
    exact Or.inl h.1.symm

/-- The velocity-field consequences of motionIf_cases packaged for the
pipeline proofs. -/
theorem motionIf_ok (ds : Dataset) (lg0 : Logger) (mo : Option String)
    (ds1 : Dataset) (lg1 : Logger)
    (h : (if truthyMode mo then motion_correction ds (mo.getD "") lg0
          else .ok (ds, lg0)) = .ok (ds1, lg1)) :
    (ds1 = { ds with u := ds1.u, v := ds1.v, w := ds1.w }) ∧
    (∀ D T, gridShaped ds.u D T → gridShaped ds1.u D T) ∧
    (∀ D T, gridShaped ds.v D T → gridShaped ds1.v D T) ∧
    (∀ D T, gridShaped ds.w D T → gridShaped ds1.w D T) ∧
    (∀ d t, (gridGet ds.u .nan d t).isfin = false → (gridGet ds1.u .nan d t).isfin = false) ∧
    (∀ d t, (gridGet ds.v .nan d t).isfin = false → (gridGet ds1.v .nan d t).isfin = false) ∧
    (∀ d t, (gridGet ds.w .nan d t).isfin = false → (gridGet ds1.w .nan d t).isfin = false) := by
  rcases motionIf_cases ds lg0 mo ds1 lg1 h with he | ⟨bu, bv, bw, hbu, hbv, hbw, he⟩
  · subst he
    exact ⟨rfl, fun _ _ hs => hs, fun _ _ hs => hs, fun _ _ hs => hs,
           fun _ _ hf => hf, fun _ _ hf => hf, fun _ _ hf => hf⟩
  · subst he
    refine ⟨rfl, ?_, ?_, ?_, ?_, ?_, ?_⟩
    · intro D T hs; exact shaped_gridIdxMap _ hs
    · intro D T hs; exact shaped_gridIdxMap _ hs
    · intro D T hs; exact shaped_gridIdxMap _ hs
    · intro d t hf; exact nonfin_broadcastSub _ _ _ _ hf
    · intro d t hf; exact nonfin_broadcastSub _ _ _ _ hf
    · intro d t hf; exact nonfin_broadcastSub _ _ _ _ hf

theorem ampStage_ok {ds : Dataset} {p : QCParams} {st st' : QCState}
    (h : ampStage ds p st = .ok st') :
    (∀ D T, gridShaped st.flags D T → gridShaped st'.flags D T) ∧ st'.vbQC = st.vbQC := by
  unfold ampStage at h
  by_cases hth : p.amp_th ≠ 0
  · rw [if_pos hth] at h
    cases ht : amplitude_test ds p.amp_th with
    | error e => rw [ht] at h; simp at h
    | ok m =>
      rw [ht] at h
      simp at h
      subst h
      exact ⟨fun _ _ hs => shaped_maskAssign hs, rfl⟩
  · rw [if_neg hth] at h
    simp at h
    subst h
    exact ⟨fun _ _ hs => hs, rfl⟩

theorem corrStage_ok {ds : Dataset} {p : QCParams} {st st' : QCState}
    (h : corrStage ds p st = .ok st') :
    (∀ D T, gridShaped st.flags D T → gridShaped st'.flags D T) ∧ st'.vbQC = st.vbQC := by
  unfold corrStage at h
  by_cases hth : p.corr_th ≠ 0
  · rw [if_pos hth] at h
    cases ht : correlation_test ds p.corr_th with
    | error e => rw [ht] at h; simp at h
    | ok m =>
      rw [ht] at h
      simp at h
      subst h
      exact ⟨fun _ _ hs => shaped_maskAssign hs, rfl⟩
  · rw [if_neg hth] at h
    simp at h
    subst h
    exact ⟨fun _ _ hs => hs, rfl⟩

theorem pgStage_ok {ds : Dataset} {p : QCParams} {st st' : QCState}
    (h : pgStage ds p st = .ok st') :
    (∀ D T, gridShaped st.flags D T → gridShaped st'.flags D T) ∧ st'.vbQC = st.vbQC := by
  unfold pgStage at h
  by_cases hth : p.pg_th ≠ 0
  · rw [if_pos hth] at h
    cases ht : percentgood_test ds p.pg_th with
    | error e => rw [ht] at h; simp at h
    | ok m =>
      rw [ht] at h
      simp at h
      subst h
      exact ⟨fun _ _ hs => shaped_maskAssign hs, rfl⟩
  · rw [if_neg hth] at h
    simp at h
    subst h
    exact ⟨fun _ _ hs => hs, rfl⟩

theorem horizStage_ok (env : PyEnv) (ds : Dataset) (p : QCParams) (st : QCState) :
    (∀ D T, gridShaped st.flags D T → gridShaped (horizStage env ds p st).flags D T) ∧
    (horizStage env ds p st).vbQC = st.vbQC := by
  unfold horizStage
  by_cases hth : p.horizontal_vel_th ≠ 0
  · rw [if_pos hth]
    exact ⟨fun _ _ hs => shaped_maskAssign hs, rfl⟩
  · rw [if_neg hth]
    exact ⟨fun _ _ hs => hs, rfl⟩

theorem vertStage_ok (env : PyEnv) (ds : Dataset) (p : QCParams) (st : QCState) :
    (∀ D T, gridShaped st.flags D T → gridShaped (vertStage env ds p st).flags D T) ∧
    (vertStage env ds p st).vbQC = st.vbQC := by
  unfold vertStage
  by_cases hth : p.vertical_vel_th ≠ 0
  · rw [if_pos hth]
    exact ⟨fun _ _ hs => shaped_maskAssign hs, rfl⟩
  · rw [if_neg hth]
    exact ⟨fun _ _ hs => hs, rfl⟩

theorem errStage_ok (env : PyEnv) (ds : Dataset) (p : QCParams) (st : QCState) :
    (∀ D T, gridShaped st.flags D T → gridShaped (errStage env ds p st).flags D T) ∧
    (errStage env ds p st).vbQC = st.vbQC := by
  unfold errStage
  by_cases hth : p.error_vel_th ≠ 0
  · rw [if_pos hth]
    exact ⟨fun _ _ hs => shaped_maskAssign hs, rfl⟩
  · rw [if_neg hth]
    exact ⟨fun _ _ hs => hs, rfl⟩

theorem rollStage_ok {env : PyEnv} {ds : Dataset} {p : QCParams} {st st' : QCState}
    (h : rollStage env ds p st = .ok st') :
    (∀ D T, gridShaped st.flags D T → gridShaped st'.flags D T) ∧ st'.vbQC = st.vbQC := by
  unfold rollStage at h
  by_cases hth : p.roll_th ≠ 0
  · rw [if_pos hth] at h
    cases ht : roll_test env ds p.roll_th with
    | error e => rw [ht] at h; simp at h
    | ok rowMask =>
      rw [ht] at h
      simp at h
      subst h
      exact ⟨fun _ _ hs => shaped_maskAssign hs, rfl⟩
  · rw [if_neg hth] at h
    simp at h
    subst h
    exact ⟨fun _ _ hs => hs, rfl⟩

theorem pitchStage_ok {env : PyEnv} {ds : Dataset} {p : QCParams} {st st' : QCState}
    (h : pitchStage env ds p st = .ok st') :
    (∀ D T, gridShaped st.flags D T → gridShaped st'.flags D T) ∧ st'.vbQC = st.vbQC := by
  unfold pitchStage at h
  by_cases hth : p.pitch_th ≠ 0
  · rw [if_pos hth] at h
    cases ht : pitch_test env ds p.pitch_th with
    | error e => rw [ht] at h; simp at h
    | ok rowMask =>
      rw [ht] at h
      simp at h
      subst h
      exact ⟨fun _ _ hs => shaped_maskAssign hs, rfl⟩
  · rw [if_neg hth] at h
    simp at h
    subst h
    exact ⟨fun _ _ hs => hs, rfl⟩

theorem slStage_ok {env : PyEnv} {ds : Dataset} {p : QCParams} {st st' : QCState}
    (h : slStage env ds p st = .ok st') :
    (∀ D T, gridShaped st.flags D T → gridShaped st'.flags D T) ∧ st'.vbQC = st.vbQC := by
  unfold slStage at h
  by_cases hsc : p.sidelobes_correction = true
  · rw [if_pos hsc] at h
    cases hsl : sidelobe_test env ds p.bottom_depth st.lg with
    | mk s lg1 =>
      rw [hsl] at h
      cases s with
      | noneR => simp at h; subst h; exact ⟨fun _ _ hs => hs, rfl⟩
      | falseR => simp at h; subst h; exact ⟨fun _ _ hs => hs, rfl⟩
      | grid g =>
        simp at h
        by_cases hsz : gridSize g > 1
        · rw [if_pos hsz] at h; simp at h
        · rw [if_neg hsz] at h
          by_cases hsz1 : gridSize g = 1
          · rw [if_pos hsz1] at h
            split at h
            · simp at h
              subst h
              exact ⟨fun _ _ hs => shaped_maskAssign hs, rfl⟩
            · simp at h
              subst h
              exact ⟨fun _ _ hs => hs, rfl⟩
          · rw [if_neg hsz1] at h
            simp at h
            subst h
            exact ⟨fun _ _ hs => hs, rfl⟩
  · rw [if_neg hsc] at h
    simp at h
    subst h
    exact ⟨fun _ _ hs => hs, rfl⟩

theorem presStage_ok (ds : Dataset) (st : QCState) :
    (∀ D T, gridShaped st.flags D T → gridShaped (presStage ds st).flags D T) ∧
    (presStage ds st).vbQC = st.vbQC := by
  unfold presStage
  cases ds.pres with
  | none => exact ⟨fun _ _ hs => hs, rfl⟩
  | some pr => exact ⟨fun _ _ hs => shaped_maskAssign hs, rfl⟩

theorem tempStage_ok (ds : Dataset) (st : QCState) :
    (tempStage ds st).flags = st.flags ∧ (tempStage ds st).vbQC = st.vbQC := by
  unfold tempStage
  cases ds.temperature with
  | none => exact ⟨rfl, rfl⟩
  | some temp => exact ⟨rfl, rfl⟩

theorem vbStage_val (ds : Dataset) (p : QCParams) (st : QCState) :
    (vbStage ds p st).flags = st.flags ∧
    (vbStage ds p st).vbQC = (match ds.vb_vel with
      | some _ => some (gridMap (fun b => if b then (3 : ℤ) else 0)
          (vertical_beam_test ds p.amp_th p.corr_th p.pg_th))
      | none => st.vbQC) := by
  unfold vbStage
  cases ds.vb_vel with
  | none => exact ⟨rfl, rfl⟩
  | some vbv => exact ⟨rfl, rfl⟩

/-- Inversion of the test section: the flag grid keeps its shape, and the
fifth-beam QC value is exactly what vbStage writes. -/
theorem qcTests_ok {env : PyEnv} {p : QCParams} {ds : Dataset} {st0 st : QCState}
    (h : qcTests env p ds st0 = .ok st) :
    (∀ D T, gridShaped st0.flags D T → gridShaped st.flags D T) ∧
    st.vbQC = (match ds.vb_vel with
      | some _ => some (gridMap (fun b => if b then (3 : ℤ) else 0)
          (vertical_beam_test ds p.amp_th p.corr_th p.pg_th))
      | none => st0.vbQC) := by
  unfold qcTests at h
  cases hA : ampStage ds p st0 with
  | error e => rw [hA] at h; simp at h
  | ok stA =>
  rw [hA] at h
  simp only [] at h
  cases hB : corrStage ds p stA with
  | error e => rw [hB] at h; simp at h
  | ok stB =>
  rw [hB] at h
  simp only [] at h
  cases hC : pgStage ds p stB with
  | error e => rw [hC] at h; simp at h
  | ok stC =>
  rw [hC] at h
  simp only [] at h
  cases hE : rollStage env ds p (errStage env ds p (vertStage env ds p (horizStage env ds p stC))) with
  | error e => rw [hE] at h; simp at h
  | ok stE =>
  rw [hE] at h
  simp only [] at h
  cases hF : pitchStage env ds p stE with
  | error e => rw [hF] at h; simp at h
  | ok stF =>
  rw [hF] at h
  simp only [] at h
  cases hG : slStage env ds p stF with
  | error e => rw [hG] at h; simp at h
  | ok stG =>
  rw [hG] at h
  simp at h
  subst h
  obtain ⟨sA, vA⟩ := ampStage_ok hA
  obtain ⟨sB, vB⟩ := corrStage_ok hB
  obtain ⟨sC, vC⟩ := pgStage_ok hC
  obtain ⟨sH, vH⟩ := horizStage_ok env ds p stC
  obtain ⟨sV, vV⟩ := vertStage_ok env ds p (horizStage env ds p stC)
  obtain ⟨sEr, vEr⟩ := errStage_ok env ds p (vertStage env ds p (horizStage env ds p stC))
  obtain ⟨sE, vE⟩ := rollStage_ok hE
  obtain ⟨sF, vF⟩ := pitchStage_ok hF
  obtain ⟨sG, vG⟩ := slStage_ok hG
  obtain ⟨fP, vP⟩ := presStage_ok ds stG
  obtain ⟨fT, vT⟩ := tempStage_ok ds (presStage ds stG)
  obtain ⟨fVb, vVb⟩ := vbStage_val ds p (tempStage ds (presStage ds stG))
  constructor
  · intro D T hs
    rw [fVb, fT]
    exact fP D T (sG D T (sF D T (sE D T (sEr D T (sV D T (sH D T (sC D T (sB D T (sA D T hs)))))))))
  · rw [vVb]
    cases ds.vb_vel with
    | some vbv => rfl
    | none =>
      simp only
      rw [vT, vP, vG, vF, vE, vEr, vV, vH, vC, vB, vA]

/-! ### Claim theorems -/

/-- C1: in adcp_quality_control, the final missing-value pass runs after all
other tests: every depth/time cell at which u, v or w of the input dataset
is non-finite carries flag 9 in the final flag grid, and that same grid is
written to u_QC, v_QC and w_QC. -/
theorem C1_missing_value_precedence (env : PyEnv) (p : QCParams) (ds : Dataset)
    (lg : Logger) (res : QCResult) (d t : ℕ)
    (hu : gridShaped ds.u ds.depth.length ds.ntime)
    (hv : gridShaped ds.v ds.depth.length ds.ntime)
    (hw : gridShaped ds.w ds.depth.length ds.ntime)
    (hd : d < ds.depth.length) (ht : t < ds.ntime)
    (hnf : (gridGet ds.u .nan d t).isfin = false ∨
           (gridGet ds.v .nan d t).isfin = false ∨
           (gridGet ds.w .nan d t).isfin = false)
    (hok : adcp_quality_control env p ds lg = .ok res) :
    gridGet res.u_QC 0 d t = 9 ∧ res.v_QC = res.u_QC ∧ res.w_QC = res.u_QC := by
  unfold adcp_quality_control at hok
  simp only [] at hok
  cases hmot : (if truthyMode p.motion_correction_mode then
      motion_correction ds (p.motion_correction_mode.getD "")
        (sectM (Logger.reset lg) "Quality Control")
    else .ok (ds, sectM (Logger.reset lg) "Quality Control")) with
  | error e => rw [hmot] at hok; simp at hok
  | ok pair =>
  obtain ⟨ds1, lg1⟩ := pair
  rw [hmot] at hok
  simp only [] at hok
  obtain ⟨hrec, hsu, hsv, hsw, hfu, hfv, hfw⟩ :=
    motionIf_ok ds (sectM (Logger.reset lg) "Quality Control")
      p.motion_correction_mode ds1 lg1 hmot
  have hsu1 : gridShaped ds1.u ds.depth.length ds.ntime := hsu _ _ hu
  have hsv1 : gridShaped ds1.v ds.depth.length ds.ntime := hsv _ _ hv
  have hsw1 : gridShaped ds1.w ds.depth.length ds.ntime := hsw _ _ hw
  have hnf1 : (gridGet ds1.u .nan d t).isfin = false ∨
      (gridGet ds1.v .nan d t).isfin = false ∨
      (gridGet ds1.w .nan d t).isfin = false := by
    rcases hnf with hh | hh | hh
    · exact Or.inl (hfu d t hh)
    · exact Or.inr (Or.inl (hfv d t hh))
    · exact Or.inr (Or.inr (hfw d t hh))
  have hcells := setImpl_cell ds1 IMPLAUSIBLE_VEL_TRESHOLD hsu1 hsv1 hsw1 hd ht
  rw [implCell_nonfin _ hnf1] at hcells
  have hcu : gridGet (set_implausible_vel_to_nan ds1 IMPLAUSIBLE_VEL_TRESHOLD).u .nan d t = .nan := by
    have := congrArg Prod.fst hcells; simpa using this
  have hdep1 : ds1.depth = ds.depth := by rw [hrec]
  have hnt1 : ds1.ntime = ds.ntime := by rw [hrec]
  have hs2u : gridShaped (set_implausible_vel_to_nan ds1 IMPLAUSIBLE_VEL_TRESHOLD).u
      ds.depth.length ds.ntime := by
    unfold set_implausible_vel_to_nan
    simp only []
    exact shaped_gridIdxMap _ (shaped_gridIdxMap _ (shaped_gridIdxMap _ hsu1))
  have hmiss : gridGet (missingVelMask (set_implausible_vel_to_nan ds1 IMPLAUSIBLE_VEL_TRESHOLD))
      false d t = true := by
    obtain ⟨hd2, ht2⟩ := shapedIdx hs2u hd ht
    rw [missingVelMask, gridGet_gridIdxMap _ _ FVal.nan false hd2 ht2, hcu]
    rfl
  have hst0 : gridShaped (gridOnes (set_implausible_vel_to_nan ds1 IMPLAUSIBLE_VEL_TRESHOLD).depth.length
      (set_implausible_vel_to_nan ds1 IMPLAUSIBLE_VEL_TRESHOLD).ntime) ds.depth.length ds.ntime := by
    have e1 : (set_implausible_vel_to_nan ds1 IMPLAUSIBLE_VEL_TRESHOLD).depth = ds.depth := hdep1
    have e2 : (set_implausible_vel_to_nan ds1 IMPLAUSIBLE_VEL_TRESHOLD).ntime = ds.ntime := hnt1
    rw [e1, e2]
    exact shaped_gridOnes _ _
  cases hq : qcTests env p (set_implausible_vel_to_nan ds1 IMPLAUSIBLE_VEL_TRESHOLD)
      ⟨gridOnes (set_implausible_vel_to_nan ds1 IMPLAUSIBLE_VEL_TRESHOLD).depth.length
        (set_implausible_vel_to_nan ds1 IMPLAUSIBLE_VEL_TRESHOLD).ntime, lg1, none, none, none⟩ with
  | error e => rw [hq] at hok; simp at hok
  | ok st =>
  rw [hq] at hok
  simp only [] at hok
  obtain ⟨hflagsh, -⟩ := qcTests_ok hq
  have hstf : gridShaped st.flags ds.depth.length ds.ntime := hflagsh _ _ hst0
  simp at hok
  subst hok
  obtain ⟨hd3, ht3⟩ := shapedIdx hstf hd ht
  refine ⟨?_, rfl, rfl⟩
  rw [gridGet_maskAssign st.flags _ 9 hd3 ht3, hmiss]
  simp

/-! ### Concrete fixtures for witnesses and counterexamples -/

instance exceptDecEq {ε α : Type} [DecidableEq ε] [DecidableEq α] :
    DecidableEq (Except ε α) := fun x y =>
  match x, y with
  | .error a, .error b =>
      if h : a = b then isTrue (h ▸ rfl)
      else isFalse (fun hc => h (Except.error.inj hc))
  | .ok a, .ok b =>
      if h : a = b then isTrue (h ▸ rfl)
      else isFalse (fun hc => h (Except.ok.inj hc))
  | .error _, .ok _ => isFalse (fun hc => Except.noConfusion hc)
  | .ok _, .error _ => isFalse (fun hc => Except.noConfusion hc)

def isOkE : Except ε α → Bool
  | .ok _ => true
  | .error _ => false

/-- Concrete environment for one-cell datasets. -/
def qcEnv1 : PyEnv :=
  { junkH := [[false]], junkV := [[false]], junkE := [[false]],
    rollDev := fun r => r, pitchDev := fun r => r, cosQ := fun _ => 1 }

/-- A one-cell dataset carrying every variable the default QC tests need. -/
def fullDS : Dataset :=
  { depth := [5], ntime := 1,
    u := [[.fin 1]], v := [[.fin 1]], w := [[.fin 1]], e := [[.fin 1]],
    amp1 := some [[.fin 100]], amp2 := some [[.fin 100]],
    amp3 := some [[.fin 100]], amp4 := some [[.fin 100]],
    corr1 := some [[.fin 100]], corr2 := some [[.fin 100]],
    corr3 := some [[.fin 100]], corr4 := some [[.fin 100]],
    pg := some [[.fin 100]],
    vb_vel := none, vb_amp := none, vb_corr := none, vb_pg := none,
    pres := none, temperature := none,
    roll_ := some [.fin 0], pitch := some [.fin 0],
    bt_u := none, bt_v := none, bt_w := none, bt_depth := none,
    u_ship := none, v_ship := none, lon := none, xducer_depth := none,
    attr_beam_angle := 0, attr_orientation := "down", attr_xducer_depth := none }

def lgQC : Logger := ⟨"", 0, 0⟩

def dsW1 : Dataset := { fullDS with w := [[FVal.nan]] }

/-- C1 witness: on a concrete dataset whose w alone is nan at its single
cell, the quality control completes and writes flag 9 there. -/
theorem C1_missing_value_precedence_witness :
    (adcp_quality_control qcEnv1 {} dsW1 lgQC).map (fun r => gridGet r.u_QC 0 0 0) = .ok 9 := by
  cases hok : adcp_quality_control qcEnv1 {} dsW1 lgQC with
  | error e =>
    have h2 : isOkE (adcp_quality_control qcEnv1 {} dsW1 lgQC) = true := by decide
    rw [hok] at h2
    simp [isOkE] at h2
  | ok res =>
    have h9 := C1_missing_value_precedence qcEnv1 {} dsW1 lgQC res 0 0
      (by decide) (by decide) (by decide) (by decide) (by decide)
      (Or.inr (Or.inr (by decide))) hok
    simp [Except.map]
    exact h9.1

def dsNoCorr : Dataset := { fullDS with corr1 := none }

/-- C2: the code contradicts the claim.  On a dataset missing corr1 with the
correlation test enabled, correlation_test reaches l.warnings(...), an
attribute utils.Logger does not define, so adcp_quality_control aborts with
AttributeError instead of skipping the test with a counted warning. -/
theorem C2_missing_prerequisite_raises :
    adcp_quality_control qcEnv1 {} dsNoCorr lgQC = .error .attributeError := by
  decide

/-- Concrete environment for two-depth datasets. -/
def qcEnv2 : PyEnv :=
  { junkH := [[false], [false]], junkV := [[false], [false]], junkE := [[false], [false]],
    rollDev := fun r => r, pitchDev := fun r => r, cosQ := fun _ => 1 }

/-- A two-depth, one-time dataset on which the sidelobe test resolves. -/
def ds7 : Dataset :=
  { depth := [10, 200], ntime := 1,
    u := [[.fin 1], [.fin 1]], v := [[.fin 1], [.fin 1]],
    w := [[.fin 1], [.fin 1]], e := [[.fin 1], [.fin 1]],
    amp1 := some [[.fin 100], [.fin 100]], amp2 := some [[.fin 100], [.fin 100]],
    amp3 := some [[.fin 100], [.fin 100]], amp4 := some [[.fin 100], [.fin 100]],
    corr1 := some [[.fin 100], [.fin 100]], corr2 := some [[.fin 100], [.fin 100]],
    corr3 := some [[.fin 100], [.fin 100]], corr4 := some [[.fin 100], [.fin 100]],
    pg := some [[.fin 100], [.fin 100]],
    vb_vel := none, vb_amp := none, vb_corr := none, vb_pg := none,
    pres := none, temperature := none,
    roll_ := some [.fin 0], pitch := some [.fin 0],
    bt_u := none, bt_v := none, bt_w := none, bt_depth := none,
    u_ship := none, v_ship := none, lon := none, xducer_depth := none,
    attr_beam_angle := 20, attr_orientation := "down", attr_xducer_depth := some 10 }

def p7 : QCParams := { sidelobes_correction := true, bottom_depth := some 100 }

/-- C7: the code contradicts the claim.  With the sidelobe test enabled and
resolvable on a downward-looking dataset of more than one cell, the guard
if sidelobe_flag: evaluates a multi-element boolean ndarray as a truth
value, so adcp_quality_control raises ValueError instead of completing and
writing flag 4. -/
theorem C7_sidelobe_value_error :
    adcp_quality_control qcEnv2 p7 ds7 lgQC = .error .valueError := by
  decide

/-- C10: after set_implausible_vel_to_nan, every in-range cell has either
all three components nan, or all three finite with absolute value strictly
below the threshold; and a non-finite value in any single input component
forces all three components of that cell to nan. -/
theorem C10_implausible_vel_invariant (ds : Dataset) (thres : ℚ) (D T d t : ℕ)
    (hu : gridShaped ds.u D T) (hv : gridShaped ds.v D T) (hw : gridShaped ds.w D T)
    (hd : d < D) (ht : t < T) :
    ((gridGet (set_implausible_vel_to_nan ds thres).u .nan d t = .nan ∧
      gridGet (set_implausible_vel_to_nan ds thres).v .nan d t = .nan ∧
      gridGet (set_implausible_vel_to_nan ds thres).w .nan d t = .nan) ∨
     (∃ qu qv qw : ℚ,
        gridGet (set_implausible_vel_to_nan ds thres).u .nan d t = .fin qu ∧
        gridGet (set_implausible_vel_to_nan ds thres).v .nan d t = .fin qv ∧
        gridGet (set_implausible_vel_to_nan ds thres).w .nan d t = .fin qw ∧
        |qu| < thres ∧ |qv| < thres ∧ |qw| < thres)) ∧
    (((gridGet ds.u .nan d t).isfin = false ∨ (gridGet ds.v .nan d t).isfin = false ∨
      (gridGet ds.w .nan d t).isfin = false) →
      (gridGet (set_implausible_vel_to_nan ds thres).u .nan d t = .nan ∧
       gridGet (set_implausible_vel_to_nan ds thres).v .nan d t = .nan ∧
       gridGet (set_implausible_vel_to_nan ds thres).w .nan d t = .nan)) := by
  have hcells := setImpl_cell ds thres hu hv hw hd ht
  constructor
  · rcases implCell_dichotomy (gridGet ds.u .nan d t) (gridGet ds.v .nan d t)
        (gridGet ds.w .nan d t) thres with hnan | ⟨qu, qv, qw, heq, h1, h2, h3⟩
    · left
      rw [hnan] at hcells
      simpa [Prod.ext_iff] using hcells
    · right
      rw [heq] at hcells
      obtain ⟨e1, e2, e3⟩ : _ ∧ _ ∧ _ := by simpa [Prod.ext_iff] using hcells
      exact ⟨qu, qv, qw, e1, e2, e3, h1, h2, h3⟩
  · intro hnf
    rw [implCell_nonfin _ hnf] at hcells
    simpa [Prod.ext_iff] using hcells

def dsW10 : Dataset := { fullDS with u := [[FVal.nan]] }

/-- C10 witness: a concrete cell with nan in u alone ends with all three
components nan. -/
theorem C10_implausible_vel_invariant_witness :
    gridGet (set_implausible_vel_to_nan dsW10 15).u .nan 0 0 = .nan ∧
    gridGet (set_implausible_vel_to_nan dsW10 15).v .nan 0 0 = .nan ∧
    gridGet (set_implausible_vel_to_nan dsW10 15).w .nan 0 0 = .nan :=
  (C10_implausible_vel_invariant dsW10 15 1 1 0 0 (by decide) (by decide) (by decide)
    (by decide) (by decide)).2 (Or.inl (by decide))

/-- C5 counterexample: at verbosity level 2 Logger.warning leaves the
warning counter unchanged, contradicting the claim that every level in
0, 1, 2 increments it by one. -/
theorem C5_counterexample_level2 :
    ((Logger.mk "" 0 2).warning "m" false "").1.w_count = (Logger.mk "" 0 2).w_count ∧
    (Logger.mk "" 0 2).w_count ≠ (Logger.mk "" 0 2).w_count + 1 := by
  decide

/-- C5 (amended): warning, log and section always append their message to
the logbook at every verbosity level, log never touches the warning
counter, and warning increments the counter exactly when level < 2: at
level 2 the increment is suppressed together with the console print, while
log printing stops already at level 1. -/
theorem C5_logger_levels (lg : Logger) (msg : String) (t : Bool) (ts : String) :
    ((lg.warning msg t ts).1.w_count = lg.w_count + (if lg.level < 2 then 1 else 0)) ∧
    ((lg.warning msg t ts).1.logbook =
      lg.logbook ++ " " ++ (if t then ts ++ " " ++ msg else msg) ++ "\n") ∧
    ((lg.warning msg t ts).2 = if lg.level < 2 then ["WARNING:" ++ msg] else []) ∧
    ((lg.log msg t ts).1.logbook =
      lg.logbook ++ " " ++ (if t then ts ++ " " ++ msg else msg) ++ "\n") ∧
    ((lg.log msg t ts).1.w_count = lg.w_count) ∧
    ((lg.log msg t ts).2 = if lg.level < 1 then [msg] else []) ∧
    ((lg.section' msg t ts).1.logbook =
      lg.logbook ++ "[" ++ msg ++ "]" ++ (if t then " " ++ ts else "") ++ "\n") ∧
    ((lg.section' msg t ts).1.w_count = lg.w_count) := by
  by_cases h2 : lg.level < 2
  · by_cases h1 : lg.level < 1 <;>
      simp [Logger.warning, Logger.log, Logger.section', h1, h2]
  · have h1 : ¬ lg.level < 1 := by omega
    simp [Logger.warning, Logger.log, Logger.section', h1, h2]

def trivialTEnv : TransformEnv :=
  { beam_to_xyz := id, bt_beam_to_xyz := id,
    rdi_xyz_enu := fun g _ _ _ _ => g, bt_rdi_xyz_enu := fun b _ _ _ _ => b,
    round3 := id }

def shipData : CData :=
  { coordsystem := "ship", convex := true, angle := 20,
    vel := [[.fin 1]], bt_vel := [.fin 1],
    heading := [.fin 1], roll_ := [.fin 1], pitch := [.fin 1] }

/-- C3: the code contradicts the claim.  For a raw bundle reporting the
coordinate system ship, coordsystem2earth constructs CoordinateSystemError
without raising it (the raise keyword is missing), and the load then fails
with NameError on the unbound local bt_xyze rather than with
CoordinateSystemError. -/
theorem C3_unknown_coordsystem_no_raise :
    loadCoordStage trivialTEnv shipData "down" = .error .nameError ∧
    loadCoordStage trivialTEnv shipData "down" ≠ .error .coordinateSystemError := by
  constructor <;> decide

/-- C9: motion_correction in mode bt with a missing bottom-track variable
logs exactly one warning naming bt_u, bt_v, bt_w and leaves the dataset
unchanged; with all three present it subtracts the bottom-track component
from u, v and w, broadcast across depth, with no warning counted. -/
theorem C9_motion_correction_bt (ds : Dataset) (lg : Logger) (hlev : lg.level < 2) :
    ((ds.bt_u = none ∨ ds.bt_v = none ∨ ds.bt_w = none) →
      motion_correction ds "bt" lg = .ok (ds,
        { lg with w_count := lg.w_count + 1,
                  logbook := lg.logbook ++ " " ++
                    "Motion correction aborded. Bottom velocity (bt_u, bt_v, bt_w) missing" ++ "\n" })) ∧
    (∀ bu bv bw, ds.bt_u = some bu → ds.bt_v = some bv → ds.bt_w = some bw →
      motion_correction ds "bt" lg = .ok (
        { ds with u := broadcastSub ds.u bu, v := broadcastSub ds.v bv,
                  w := broadcastSub ds.w bw },
        { lg with logbook := lg.logbook ++ " " ++
                    "Motion correction carried out with bottom track" ++ "\n" })) ∧
    (∀ (g : Grid FVal) (vec : List FVal) (d t : ℕ),
      d < g.length → t < (g.getD d []).length →
      gridGet (broadcastSub g vec) .nan d t =
        FVal.sub (gridGet g .nan d t) (vec.getD t .nan)) := by
  refine ⟨?_, ?_, ?_⟩
  · intro hmiss
    unfold motion_correction
    rw [if_pos rfl]
    rcases hmiss with h | h | h
    · rw [h]
      simp [warnM, Logger.warning, hlev]
    · cases hbu : ds.bt_u with
      | none => simp [warnM, Logger.warning, hlev]
      | some bu =>
        rw [h]
        simp [warnM, Logger.warning, hlev]
    · cases hbu : ds.bt_u with
      | none => simp [warnM, Logger.warning, hlev]
      | some bu =>
        cases hbv : ds.bt_v with
        | none => simp [warnM, Logger.warning, hlev]
        | some bv =>
          rw [h]
          simp [warnM, Logger.warning, hlev]
  · intro bu bv bw hbu hbv hbw
    unfold motion_correction
    rw [if_pos rfl, hbu, hbv, hbw]
    simp [logM, Logger.log]
  · intro g vec d t hd ht
    rw [broadcastSub, gridGet_gridIdxMap _ g FVal.nan FVal.nan hd ht]

def dsBt : Dataset := { fullDS with bt_u := some [.fin 2], bt_v := some [.fin 3] }

/-- C9 witness: a concrete bt-mode call with bt_w absent returns the
dataset unchanged with exactly one warning naming the bottom-track
variables. -/
theorem C9_motion_correction_bt_witness :
    motion_correction dsBt "bt" lgQC = .ok (dsBt,
      ⟨" Motion correction aborded. Bottom velocity (bt_u, bt_v, bt_w) missing" ++ "\n", 1, 0⟩) := by
  have h := (C9_motion_correction_bt dsBt lgQC (by decide)).1 (Or.inr (Or.inr rfl))
  exact h.trans (by decide)

/-- Modelled from the spec: the fifth-beam failure rule as the spec words
it — a logical OR, across whichever of vb_amp, vb_corr, vb_pg are present
and enabled, of that channel being below its threshold. -/
def vbFailSpec (ds : Dataset) (p : QCParams) (d t : ℕ) : Bool :=
  (match ds.vb_amp with
   | some a => decide (p.amp_th ≠ 0) && (gridGet a .nan d t).lt p.amp_th
   | none => false) ||
  ((match ds.vb_corr with
    | some c => decide (p.corr_th ≠ 0) && (gridGet c .nan d t).lt p.corr_th
    | none => false) ||
   (match ds.vb_pg with
    | some g => decide (p.pg_th ≠ 0) && (gridGet g .nan d t).lt p.pg_th
    | none => false))

theorem shaped_vbStep {g0 : Grid Bool} {D T : ℕ} (hs : gridShaped g0 D T)
    (o : Option (Grid FVal)) (th : ℚ) : gridShaped (vbStep g0 o th) D T := by
  cases o with
  | none => exact hs
  | some a =>
    simp only [vbStep]
    split
    · exact shaped_gridIdxMap _ hs
    · exact hs

theorem vbStep_cell {g0 : Grid Bool} {D T d t : ℕ} (hs : gridShaped g0 D T)
    (hd : d < D) (ht : t < T) (o : Option (Grid FVal)) (th : ℚ) :
    gridGet (vbStep g0 o th) false d t =
      (gridGet g0 false d t ||
       (match o with
        | some a => decide (th ≠ 0) && (gridGet a .nan d t).lt th
        | none => false)) := by
  cases o with
  | none => simp [vbStep]
  | some a =>
    simp only [vbStep]
    by_cases hth : th ≠ 0
    · rw [if_pos hth]
      obtain ⟨hd0, ht0⟩ := shapedIdx hs hd ht
      rw [gridGet_gridIdxMap _ g0 false false hd0 ht0]
      simp [hth]
    · rw [if_neg hth]
      simp [hth]

theorem vertical_beam_test_cell (ds : Dataset) (p : QCParams) {d t : ℕ}
    (hd : d < ds.depth.length) (ht : t < ds.ntime) :
    gridGet (vertical_beam_test ds p.amp_th p.corr_th p.pg_th) false d t =
      vbFailSpec ds p d t := by
  have h0 : gridShaped (gridFalse ds.depth.length ds.ntime) ds.depth.length ds.ntime :=
    shaped_gridFalse _ _
  have h1 := shaped_vbStep h0 ds.vb_amp p.amp_th
  have h2 := shaped_vbStep h1 ds.vb_corr p.corr_th
  rw [vertical_beam_test, vbStep_cell h2 hd ht, vbStep_cell h1 hd ht,
    vbStep_cell h0 hd ht, gridGet_gridFalse hd, vbFailSpec]
  simp [Bool.or_assoc]

/-- C4 (amended): when vb_vel is present and the quality control completes,
vb_vel_QC holds 3 exactly at the cells where the fifth-beam rule (logical
OR over the present and enabled vb channels being below threshold) fails,
and 0 — not 1 — at every other cell. -/
theorem C4_vb_vel_qc (env : PyEnv) (p : QCParams) (ds : Dataset) (lg : Logger)
    (res : QCResult) (vbv : Grid FVal) (d t : ℕ)
    (hvb : ds.vb_vel = some vbv)
    (hd : d < ds.depth.length) (ht : t < ds.ntime)
    (hok : adcp_quality_control env p ds lg = .ok res) :
    res.vb_vel_QC.map (fun g => gridGet g 0 d t) =
      some (if vbFailSpec ds p d t then (3 : ℤ) else 0) := by
  unfold adcp_quality_control at hok
  simp only [] at hok
  cases hmot : (if truthyMode p.motion_correction_mode then
      motion_correction ds (p.motion_correction_mode.getD "")
        (sectM (Logger.reset lg) "Quality Control")
    else .ok (ds, sectM (Logger.reset lg) "Quality Control")) with
  | error e => rw [hmot] at hok; simp at hok
  | ok pair =>
  obtain ⟨ds1, lg1⟩ := pair
  rw [hmot] at hok
  simp only [] at hok
  obtain ⟨hrec, -, -, -, -, -, -⟩ :=
    motionIf_ok ds (sectM (Logger.reset lg) "Quality Control")
      p.motion_correction_mode ds1 lg1 hmot
  cases hq : qcTests env p (set_implausible_vel_to_nan ds1 IMPLAUSIBLE_VEL_TRESHOLD)
      ⟨gridOnes (set_implausible_vel_to_nan ds1 IMPLAUSIBLE_VEL_TRESHOLD).depth.length
        (set_implausible_vel_to_nan ds1 IMPLAUSIBLE_VEL_TRESHOLD).ntime, lg1, none, none, none⟩ with
  | error e => rw [hq] at hok; simp at hok
  | ok st =>
  rw [hq] at hok
  simp only [] at hok
  obtain ⟨-, hvbq⟩ := qcTests_ok hq
  simp at hok
  subst hok
  have e_vb : (set_implausible_vel_to_nan ds1 IMPLAUSIBLE_VEL_TRESHOLD).vb_vel = ds.vb_vel := by
    show ds1.vb_vel = ds.vb_vel
    rw [hrec]
  have e_amp : (set_implausible_vel_to_nan ds1 IMPLAUSIBLE_VEL_TRESHOLD).vb_amp = ds.vb_amp := by
    show ds1.vb_amp = ds.vb_amp
    rw [hrec]
  have e_corr : (set_implausible_vel_to_nan ds1 IMPLAUSIBLE_VEL_TRESHOLD).vb_corr = ds.vb_corr := by
    show ds1.vb_corr = ds.vb_corr
    rw [hrec]
  have e_pg : (set_implausible_vel_to_nan ds1 IMPLAUSIBLE_VEL_TRESHOLD).vb_pg = ds.vb_pg := by
    show ds1.vb_pg = ds.vb_pg
    rw [hrec]
  have e_dep : (set_implausible_vel_to_nan ds1 IMPLAUSIBLE_VEL_TRESHOLD).depth = ds.depth := by
    show ds1.depth = ds.depth
    rw [hrec]
  have e_nt : (set_implausible_vel_to_nan ds1 IMPLAUSIBLE_VEL_TRESHOLD).ntime = ds.ntime := by
    show ds1.ntime = ds.ntime
    rw [hrec]
  rw [e_vb, hvb] at hvbq
  simp only [] at hvbq
  rw [hvbq]
  simp only [Option.map_some']
  have hd2 : d < (set_implausible_vel_to_nan ds1 IMPLAUSIBLE_VEL_TRESHOLD).depth.length := by
    rw [e_dep]; exact hd
  have ht2 : t < (set_implausible_vel_to_nan ds1 IMPLAUSIBLE_VEL_TRESHOLD).ntime := by
    rw [e_nt]; exact ht
  have h0 : gridShaped (gridFalse (set_implausible_vel_to_nan ds1 IMPLAUSIBLE_VEL_TRESHOLD).depth.length
      (set_implausible_vel_to_nan ds1 IMPLAUSIBLE_VEL_TRESHOLD).ntime)
      (set_implausible_vel_to_nan ds1 IMPLAUSIBLE_VEL_TRESHOLD).depth.length
      (set_implausible_vel_to_nan ds1 IMPLAUSIBLE_VEL_TRESHOLD).ntime := shaped_gridFalse _ _
  have h1 := shaped_vbStep h0 (set_implausible_vel_to_nan ds1 IMPLAUSIBLE_VEL_TRESHOLD).vb_amp p.amp_th
  have h2 := shaped_vbStep h1 (set_implausible_vel_to_nan ds1 IMPLAUSIBLE_VEL_TRESHOLD).vb_corr p.corr_th
  have h3 := shaped_vbStep h2 (set_implausible_vel_to_nan ds1 IMPLAUSIBLE_VEL_TRESHOLD).vb_pg p.pg_th
  have hsvb : gridShaped (vertical_beam_test (set_implausible_vel_to_nan ds1 IMPLAUSIBLE_VEL_TRESHOLD)
      p.amp_th p.corr_th p.pg_th)
      (set_implausible_vel_to_nan ds1 IMPLAUSIBLE_VEL_TRESHOLD).depth.length
      (set_implausible_vel_to_nan ds1 IMPLAUSIBLE_VEL_TRESHOLD).ntime := h3
  obtain ⟨hd3, ht3⟩ := shapedIdx hsvb hd2 ht2
  rw [gridGet_gridMap _ _ false 0 hd3 ht3]
  rw [vertical_beam_test_cell _ p hd2 ht2]
  have hspec : vbFailSpec (set_implausible_vel_to_nan ds1 IMPLAUSIBLE_VEL_TRESHOLD) p d t =
      vbFailSpec ds p d t := by
    unfold vbFailSpec
    rw [e_amp, e_corr, e_pg]
  rw [hspec]

def dsV : Dataset :=
  { fullDS with vb_vel := some [[.fin 1]], vb_amp := some [[.fin 100]] }

/-- C4 counterexample: on a concrete dataset whose fifth-beam test passes at
its single cell, vb_vel_QC holds 0 there, not 1 as the claim states. -/
theorem C4_vb_vel_qc_counterexample :
    (adcp_quality_control qcEnv1 {} dsV lgQC).map
      (fun r => r.vb_vel_QC.map (fun g => gridGet g 0 0 0)) = .ok (some 0) ∧
    (0 : ℤ) ≠ 1 := by
  constructor <;> decide

/-- C4 witness: the amended theorem applied to the same concrete dataset. -/
theorem C4_vb_vel_qc_witness :
    (adcp_quality_control qcEnv1 {} dsV lgQC).map
      (fun r => r.vb_vel_QC.map (fun g => gridGet g 0 0 0)) =
      .ok (some (if vbFailSpec dsV {} 0 0 then (3 : ℤ) else 0)) := by
  cases hok : adcp_quality_control qcEnv1 {} dsV lgQC with
  | error e =>
    have h2 : isOkE (adcp_quality_control qcEnv1 {} dsV lgQC) = true := by decide
    rw [hok] at h2
    simp [isOkE] at h2
  | ok res =>
    have h := C4_vb_vel_qc qcEnv1 {} dsV lgQC res [[.fin 1]] 0 0 rfl
      (by decide) (by decide) hok
    show Except.ok (res.vb_vel_QC.map (fun g => gridGet g 0 0 0)) =
      Except.ok (α := Option ℤ) (some (if vbFailSpec dsV {} 0 0 then (3 : ℤ) else 0))
    rw [h]

/-- C6: with all four correlation (resp. amplitude) channels present, the
correlation (resp. amplitude) test marks a cell as failed exactly when all
four beams are strictly below the threshold. -/
theorem C6_all_beams_below (ds : Dataset) (th : ℚ)
    (c1 c2 c3 c4 a1 a2 a3 a4 : Grid FVal) (d t : ℕ)
    (hc1 : ds.corr1 = some c1) (hc2 : ds.corr2 = some c2)
    (hc3 : ds.corr3 = some c3) (hc4 : ds.corr4 = some c4)
    (ha1 : ds.amp1 = some a1) (ha2 : ds.amp2 = some a2)
    (ha3 : ds.amp3 = some a3) (ha4 : ds.amp4 = some a4)
    (hdc : d < c1.length) (htc : t < (c1.getD d []).length)
    (hda : d < a1.length) (hta : t < (a1.getD d []).length) :
    (correlation_test ds th).map (fun m => gridGet m false d t) =
      .ok ((gridGet c1 .nan d t).lt th && (gridGet c2 .nan d t).lt th &&
           (gridGet c3 .nan d t).lt th && (gridGet c4 .nan d t).lt th) ∧
    (amplitude_test ds th).map (fun m => gridGet m false d t) =
      .ok ((gridGet a1 .nan d t).lt th && (gridGet a2 .nan d t).lt th &&
           (gridGet a3 .nan d t).lt th && (gridGet a4 .nan d t).lt th) := by
  constructor
  · unfold correlation_test
    rw [hc1, hc2, hc3, hc4]
    simp only [Except.map]
    rw [gridGet_gridIdxMap _ c1 FVal.nan false hdc htc]
  · unfold amplitude_test
    rw [ha1, ha2, ha3, ha4]
    simp only [Except.map]
    rw [gridGet_gridIdxMap _ a1 FVal.nan false hda hta]

def ds6 : Dataset :=
  { fullDS with
    corr1 := some [[.fin 10]], corr2 := some [[.fin 10]],
    corr3 := some [[.fin 10]], corr4 := some [[.fin 10]],
    amp1 := some [[.fin 10]], amp2 := some [[.fin 10]],
    amp3 := some [[.fin 10]], amp4 := some [[.fin 10]] }

/-- C6 witness: with four beam values of 10, the correlation test at
threshold 64 and the amplitude test at threshold 30 both flag the cell. -/
theorem C6_all_beams_below_witness :
    (correlation_test ds6 64).map (fun m => gridGet m false 0 0) = .ok true ∧
    (amplitude_test ds6 30).map (fun m => gridGet m false 0 0) = .ok true := by
  constructor
  · have h := C6_all_beams_below ds6 64 [[.fin 10]] [[.fin 10]] [[.fin 10]] [[.fin 10]]
      [[.fin 10]] [[.fin 10]] [[.fin 10]] [[.fin 10]] 0 0
      rfl rfl rfl rfl rfl rfl rfl rfl (by decide) (by decide) (by decide) (by decide)
    exact h.1.trans (by decide)
  · have h := C6_all_beams_below ds6 30 [[.fin 10]] [[.fin 10]] [[.fin 10]] [[.fin 10]]
      [[.fin 10]] [[.fin 10]] [[.fin 10]] [[.fin 10]] 0 0
      rfl rfl rfl rfl rfl rfl rfl rfl (by decide) (by decide) (by decide) (by decide)
    exact h.2.trans (by decide)

/-- C8: a fractional-day vector with a negative value or an adjacent
decrease is replaced by a synthetic time vector of the same length with
one-second steps anchored at year_base-01-01T00:00:00, exactly one warning
is counted, and the raw dday vector is retained in the output. -/
theorem C8_bad_dday_substitution (dday : List ℚ) (yearbase : ℤ) (lg : LoaderLogger)
    (hbad : (∃ x ∈ dday, x < 0) ∨
            (∃ i, ∃ hi : i + 1 < dday.length, dday[i + 1] < dday[i])) :
    ddayStage dday yearbase lg =
      { time := (List.range dday.length).map (fun (i : ℕ) => (yearbase, (i : ℤ))),
        ddayVar := some dday,
        lg := { logbook := lg.logbook ++ " " ++ badTimeMsg yearbase ++ "\n",
                w_count := lg.w_count + 1 } } := by
  have hcond : (dday.any (fun x => decide (x < 0)) ||
      (listDiffs dday).any (fun x => decide (x < 0))) = true := by
    rcases hbad with ⟨x, hx, hneg⟩ | ⟨i, hi, hdrop⟩
    · have h1 : dday.any (fun x => decide (x < 0)) = true := by
        rw [List.any_eq_true]
        exact ⟨x, hx, by simpa using hneg⟩
      simp [h1]
    · have h2 : (listDiffs dday).any (fun x => decide (x < 0)) = true := by
        rw [List.any_eq_true]
        have hlen : i < (listDiffs dday).length := by
          rw [listDiffs, List.length_zipWith, List.length_tail]
          omega
        have htail : i < dday.tail.length := by
          rw [List.length_tail]
          omega
        have helem : (listDiffs dday)[i] = dday[i + 1] - dday[i] := by
          simp only [listDiffs]
          rw [List.getElem_zipWith]
          rw [List.getElem_tail dday i htail]
        refine ⟨(listDiffs dday)[i], List.getElem_mem hlen, ?_⟩
        rw [helem]
        simp only [decide_eq_true_eq]
        linarith
      simp [h2]
  have hwarn : charsContain "WARNING:".data (badTimeMsg yearbase).data = true := by
    rw [badTimeMsg, String.data_append, String.data_append]
    rfl
  have htime : dday_to_datetime64
      ((List.range dday.length).map (fun (i : ℕ) => (i : ℚ) / (3600 * 24))) yearbase =
      (List.range dday.length).map (fun (i : ℕ) => (yearbase, (i : ℤ))) := by
    rw [dday_to_datetime64, List.map_map]
    apply List.map_congr_left
    intro i hi
    simp only [Function.comp_apply, Prod.mk.injEq, true_and]
    have h86 : ((3600 : ℚ) * 24) = 86400 := by norm_num
    rw [h86, div_mul_cancel₀ _ (by norm_num : (86400 : ℚ) ≠ 0), Int.floor_natCast]
  rw [ddayStage, if_pos hcond, htime, loaderLog, if_pos hwarn]

/-- C8 witness: the concrete vector with the single negative entry -1 is
replaced by the one-entry synthetic vector at second 0 of 2020-01-01, the
raw vector is kept, and exactly one warning is counted. -/
theorem C8_bad_dday_substitution_witness :
    ddayStage [(-1 : ℚ)] 2020 ⟨"", 0⟩ =
      { time := [(2020, 0)], ddayVar := some [(-1 : ℚ)],
        lg := ⟨" " ++ badTimeMsg 2020 ++ "\n", 1⟩ } := by
  have h := C8_bad_dday_substitution [(-1 : ℚ)] 2020 ⟨"", 0⟩
    (Or.inl ⟨-1, by simp, by norm_num⟩)
  refine h.trans ?_
  have hmsg : ((⟨"", 0⟩ : LoaderLogger).logbook ++ " " ++ badTimeMsg 2020 ++ "\n") =
      (" " ++ badTimeMsg 2020 ++ "\n") := by
    simp
  rw [hmsg]
  rfl

end Magtogoek
